import Mathlib

/-!
Shallow embedding of the capture core of the LabTool firmware
(src/fw/program/source/capture.c) and of the host-side calibration
computation (src/app/device/labtool/labtoolcalibrationdata.cpp), with
theorems checking the natural-language specification against the code.

Conventions of the embedding:
* C machine integers are modelled as `Nat` (or `Int` where the C type is
  signed), with `% 2^32` inserted exactly where 32-bit overflow matters.
* Calls into external collaborators (the state machine, the two capture
  engines, the clock generation unit, LEDs, the USB handler) are modelled
  by an oracle record `ExtCollab` for their returned statuses and by an
  `Event` trace recording the calls that were issued.
* IEEE doubles of the calibration computation are modelled as `Option ℚ`:
  `none` stands for a non-finite value (NaN or an infinity); a division by
  zero produces `none`, and every arithmetic operation propagates `none`.
  Rounding is not modelled (values are exact rationals).
-/

namespace Labtool

/-- Status codes shared with the rest of the firmware (cmd_status_t).
Only the codes this subsystem originates are distinguished; every other
collaborator-produced code is `errOther n`. -/
inductive CmdStatus where
  | ok
  | errUnsupportedSampleRate
  | errInvalidSignalCombination
  | errNoChannelsEnabled
  | errOther (code : Nat)
deriving DecidableEq, Repr

/-- One row of the RATECONFIG table (sample_rate_cfg_t in capture.c). -/
structure sample_rate_cfg_t where
  sampleRate : Nat
  pll0_msel : Nat
  pll0_nsel : Nat
  pll0_psel : Nat
  counter : Nat
  pll0_freq : Nat
deriving DecidableEq, Repr

/-- Initial sample rate index (2 MHz), from capture.c. -/
def INITIAL_SAMPLE_RATE_IDX : Nat := 14

/-- Offset in RATECONFIG where the SGPIO-only values start, from capture.c. -/
def SGPIO_ONLY_OFFSET : Nat := 25

/-- The RATECONFIG lookup table of capture.c, verbatim. -/
def RATECONFIG : List sample_rate_cfg_t :=
  [⟨50, 100, 250, 24, 4000, 200000⟩,
   ⟨100, 100, 250, 12, 4000, 400000⟩,
   ⟨200, 100, 250, 6, 4000, 800000⟩,
   ⟨500, 100, 200, 3, 4000, 2000000⟩,
   ⟨1000, 100, 150, 2, 4000, 4000000⟩,
   ⟨2000, 100, 150, 1, 4000, 8000000⟩,
   ⟨5000, 100, 60, 1, 4000, 20000000⟩,
   ⟨10000, 100, 30, 1, 4000, 40000000⟩,
   ⟨20000, 100, 15, 1, 4000, 80000000⟩,
   ⟨50000, 100, 15, 1, 1600, 80000000⟩,
   ⟨100000, 100, 15, 1, 800, 80000000⟩,
   ⟨200000, 100, 15, 1, 400, 80000000⟩,
   ⟨500000, 100, 15, 1, 160, 80000000⟩,
   ⟨1000000, 100, 15, 1, 80, 80000000⟩,
   ⟨2000000, 100, 15, 1, 40, 80000000⟩,
   ⟨5000000, 100, 15, 1, 16, 80000000⟩,
   ⟨10000000, 100, 15, 1, 8, 80000000⟩,
   ⟨20000000, 100, 15, 1, 4, 80000000⟩,
   ⟨30000000, 100, 20, 1, 2, 60000000⟩,
   ⟨40000000, 100, 15, 1, 2, 80000000⟩,
   ⟨50000000, 100, 24, 1, 1, 50000000⟩,
   ⟨60000000, 100, 20, 1, 1, 60000000⟩,
   ⟨70000000, 70, 12, 1, 1, 70000000⟩,
   ⟨80000000, 100, 15, 1, 1, 80000000⟩,
   ⟨0, 0, 0, 0, 0, 0⟩,
   ⟨10000000, 50, 3, 1, 20, 200000000⟩,
   ⟨20000000, 50, 3, 1, 10, 200000000⟩,
   ⟨30000000, 15, 1, 1, 6, 180000000⟩,
   ⟨40000000, 50, 3, 1, 5, 200000000⟩,
   ⟨50000000, 50, 3, 1, 4, 200000000⟩,
   ⟨60000000, 15, 1, 1, 3, 180000000⟩,
   ⟨70000000, 70, 4, 1, 3, 210000000⟩,
   ⟨80000000, 20, 1, 1, 3, 240000000⟩,
   ⟨90000000, 15, 1, 1, 2, 180000000⟩,
   ⟨100000000, 50, 3, 1, 2, 200000000⟩,
   ⟨0, 0, 0, 0, 0, 0⟩]

/-- The all-zero sentinel row terminating each sub-range. -/
def sentinelCfg : sample_rate_cfg_t := ⟨0, 0, 0, 0, 0, 0⟩

/-- RATECONFIG indexing; out-of-range reads yield the sentinel. The C code
only ever indexes with valid indices (established by capture_Init). -/
def rateAt (i : Nat) : sample_rate_cfg_t := RATECONFIG.getD i sentinelCfg

/-- One C search loop over a sentinel-terminated table slice: scan while
sampleRate is nonzero, return the relative index of the first exact match. -/
def tableLookup : List sample_rate_cfg_t → Nat → Option Nat
  | [], _ => none
  | c :: rest, w =>
    if c.sampleRate = 0 then none
    else if c.sampleRate = w then some 0
    else (tableLookup rest w).map (· + 1)

/-- capture_FindSampleRateIndex of capture.c: with no analog channels the
SGPIO-only sub-range (from SGPIO_ONLY_OFFSET) is searched first; in all
cases the general sub-range (from index 0) is the fallback; -1 when the
wanted rate is in neither. -/
def capture_FindSampleRateIndex (wantedRate : Nat) (numVADC : Nat) : Int :=
  match (if numVADC = 0 then tableLookup (RATECONFIG.drop SGPIO_ONLY_OFFSET) wantedRate
         else none) with
  | some j => ((SGPIO_ONLY_OFFSET + j : Nat) : Int)
  | none =>
    match tableLookup RATECONFIG wantedRate with
    | some j => ((j : Nat) : Int)
    | none => -1

/-- Rates of the leading sentinel-free part of a table slice (the rates the
C loop can actually reach). -/
def activeRates (l : List sample_rate_cfg_t) : List Nat :=
  (l.takeWhile fun c => c.sampleRate ≠ 0).map fun c => c.sampleRate

/-- The rates of the general sub-range (indices 0..23). -/
def generalRates : List Nat := activeRates RATECONFIG

/-- The rates of the SGPIO-only high-speed sub-range (indices 25..34). -/
def sgpioOnlyRates : List Nat := activeRates (RATECONFIG.drop SGPIO_ONLY_OFFSET)

/-- One row of the BUFFERCONFIG table (buffer_size_cfg_t in capture.c).
numDio is the C field numDIO (renamed: embedding identifiers avoid the IO
suffix); buffEndSgpio is the C field buffEndSGPIO. -/
structure buffer_size_cfg_t where
  numVADC : Nat
  numDio : Nat
  buffEndSgpio : Nat
  buffStartVADC : Nat
deriving DecidableEq, Repr

/-- The BUFFERCONFIG table of capture.c, verbatim. -/
def BUFFERCONFIG : List buffer_size_cfg_t :=
  [⟨1, 1, 0x20001C00, 0x20002000⟩,
   ⟨1, 2, 0x20001C00, 0x20002000⟩,
   ⟨1, 3, 0x20003300, 0x20003400⟩,
   ⟨1, 4, 0x20003300, 0x20003400⟩,
   ⟨1, 5, 0x20005400, 0x20005800⟩,
   ⟨1, 6, 0x20005400, 0x20005800⟩,
   ⟨1, 7, 0x20005400, 0x20005800⟩,
   ⟨1, 8, 0x20005400, 0x20005800⟩,
   ⟨1, 9, 0x20005A00, 0x20006000⟩,
   ⟨1, 10, 0x20006180, 0x20006400⟩,
   ⟨1, 11, 0x200065C0, 0x20006C00⟩,
   ⟨2, 1, 0x20000F00, 0x20001000⟩,
   ⟨2, 2, 0x20000F00, 0x20001000⟩,
   ⟨2, 3, 0x20001C00, 0x20002000⟩,
   ⟨2, 4, 0x20001C00, 0x20002000⟩,
   ⟨2, 5, 0x20003200, 0x20003800⟩,
   ⟨2, 6, 0x20003200, 0x20003800⟩,
   ⟨2, 7, 0x20003200, 0x20003800⟩,
   ⟨2, 8, 0x20003200, 0x20003800⟩,
   ⟨2, 9, 0x20003600, 0x20004000⟩,
   ⟨2, 10, 0x20003C00, 0x20004000⟩,
   ⟨2, 11, 0x20003F40, 0x20004800⟩]

/-- Modelled from the spec: capture.h is not among the sources; the spec
says the analog-channel-count field has two reserved large sentinel values
meaning short-shot and calibrate.  The exact numeric values are not fixed
by the sources; two distinct large values are chosen. -/
def NUM_ENABLED_VADC_SHORT_SHOT : Nat := 0xfffffffe

/-- Modelled from the spec: the calibrate escape sentinel (see
NUM_ENABLED_VADC_SHORT_SHOT). -/
def NUM_ENABLED_VADC_CALIBRATE : Nat := 0xffffffff

/-- Modelled from the spec: the channel count the short-shot escape stands
for in the validation step; capture.h is missing and the spec only calls it
a small analog probe capture, so 1 is chosen. -/
def NUM_ENABLED_VADC_SS_ACTUAL : Nat := 1

/-- Modelled from the spec: the calibrate escape is treated as the true
2-channel case for sizing purposes. -/
def NUM_ENABLED_VADC_CA_ACTUAL : Nat := 2

/-- Modelled from the spec: highest digital channel index.  capture.h is
missing; the 0x7ff channel masks and the BUFFERCONFIG rows up to 11 digital
channels give 11 channels DIO0..DIO10. -/
def MAX_NUM_DIOS : Nat := 10

/-- Modelled from the spec: the fixed small sample count of a short-shot
probe capture.  capture_vadc.h is missing; the value is irrelevant to the
claims and set to 1024. -/
def VADC_SHORT_SHOT_SAMPLES : Nat := 1024

/-- Number of analog input sensitivity ranges (calibrate.h). -/
def ANALOG_IN_RANGES : Nat := 8

/-- A capture buffer (circbuff_t): circbuff_Init records base address and
byte size; the buffer internals are owned by an external collaborator. -/
structure circbuff_t where
  addr : Nat
  size : Nat
deriving DecidableEq, Repr

/-- The captured_samples_t accumulator merged by the two completion
callbacks; a NULL buffer pointer is `none`. -/
structure captured_samples_t where
  trigpoint : Nat
  sgpioTrigSample : Nat
  sgpioActiveChannels : Nat
  vadcTrigSample : Nat
  vadcActiveChannels : Nat
  sgpio_samples : Option circbuff_t
  vadc_samples : Option circbuff_t
deriving DecidableEq, Repr

/-- The all-zero captured_samples_t (memset 0). -/
def emptyCapturedSamples : captured_samples_t := ⟨0, 0, 0, 0, 0, none, none⟩

/-- Digital-engine sub-configuration (cap_sgpio_cfg_t): only the fields
capture.c reads are modelled; the rest is opaque to this subsystem. -/
structure cap_sgpio_cfg_t where
  enabledChannels : Nat
  enabledTriggers : Nat
deriving DecidableEq, Repr

/-- Analog-engine sub-configuration (cap_vadc_cfg_t): only the fields
capture.c reads or writes are modelled. -/
structure cap_vadc_cfg_t where
  enabledChannels : Nat
  enabledTriggers : Nat
  voltPerDiv : Nat
  couplings : Nat
  noiseReduction : Nat
deriving DecidableEq, Repr

/-- The configuration blob from the client (capture_cfg_t).
numEnabledSgpio is the C field numEnabledSGPIO (renamed: embedding
identifiers avoid the IO suffix). -/
structure capture_cfg_t where
  numEnabledSgpio : Nat
  numEnabledVADC : Nat
  sampleRate : Nat
  postFill : Nat
  sgpio : cap_sgpio_cfg_t
  vadc : cap_vadc_cfg_t
deriving DecidableEq, Repr

/-- The purpose of capturing (capture_purpose_t). -/
inductive capture_purpose_t where
  | purposeNone
  | purposeHostRequest
  | purposeShortShot
  | purposeCalibrate
deriving DecidableEq, Repr

/-- What the host requested (capture_host_request_t). -/
inductive capture_host_request_t where
  | hostDoesNothing
  | hostDisarmed
  | hostArmed
deriving DecidableEq, Repr

/-- The controller state (capture_state_t).  lastNumVADC is the static
local of capture_SetSampleRate (part of the process state, initially -1).
sampleBufferSgpio is the C field sampleBufferSGPIO (renamed: embedding
identifiers avoid the IO suffix).  currentSampleRateIdx is a Nat: the C
initial value -1 is only ever replaced before use by capture_Init. -/
structure capture_state_t where
  sampleBufferSgpio : circbuff_t
  sampleBufferVADC : circbuff_t
  enabledSgpioChannels : Nat
  enabledVadcChannels : Nat
  currentSampleRateIdx : Nat
  lastNumVADC : Int
  capturedSamples : captured_samples_t
  calibrationSetup : capture_cfg_t
  captureSetup : capture_cfg_t
  purpose : capture_purpose_t
  hostRequest : capture_host_request_t
deriving DecidableEq, Repr

/-- The two clock-dependent peripheral domains (CGU entities) that
capture_SetSampleRate disables and re-enables. -/
inductive CguEntity where
  | basePeriph
  | baseVadc
deriving DecidableEq, Repr

/-- Calls issued to external collaborators, recorded as a trace. -/
inductive Event where
  | cguEnableEntity (e : CguEntity) (enab : Bool)
  | cguSetPll0audio (msel nsel psel : Nat)
  | cguUpdateClock
  | ledArm (lit : Bool)
  | ledTrig (lit : Bool)
  | prefillSetAsNeeded
  | prefillMarkSgpioDone
  | prefillMarkVadcDone
  | gpioDirSetup
  | sgpioInit
  | vadcInit
  | sgpioConfigure (forcedTrigger : Bool)
  | vadcConfigure (forcedTrigger : Bool)
  | sgpioPrepareToArm
  | vadcPrepareToArm
  | sgpioArm
  | vadcArm
  | sgpioDisarm
  | vadcDisarm
  | sendSamples (cs : captured_samples_t)
  | signalFailedSampling (e : CmdStatus)
deriving DecidableEq, Repr

/-- Oracle for the statuses returned by external collaborators during one
entry-point call. -/
structure ExtCollab where
  statemachineRequestState : CmdStatus
  cap_sgpio_Configure : CmdStatus
  cap_vadc_Configure : CmdStatus
  cap_sgpio_PrepareToArm : CmdStatus
  cap_vadc_PrepareToArm : CmdStatus
deriving DecidableEq, Repr

/-- capture_SetSampleRate of capture.c: no-op when neither the rate nor the
analog-channel-count context changed; otherwise resolve the rate, reject a
2-channel request whose entry has counter 1, and on success perform the
disable / set-PLL / update / re-enable cycle and record the new index and
context. -/
def capture_SetSampleRate (wantedRate : Nat) (numVADC : Nat) (s : capture_state_t) :
    CmdStatus × capture_state_t × List Event :=
  let oldSampleRate := (rateAt s.currentSampleRateIdx).sampleRate
  if wantedRate ≠ oldSampleRate ∨ s.lastNumVADC ≠ (numVADC : Int) then
    let i := capture_FindSampleRateIndex wantedRate numVADC
    if i ≠ -1 then
      if numVADC = 2 ∧ (rateAt i.toNat).counter = 1 then
        (CmdStatus.errUnsupportedSampleRate, s, [])
      else
        (CmdStatus.ok,
         { s with currentSampleRateIdx := i.toNat, lastNumVADC := (numVADC : Int) },
         [Event.cguEnableEntity CguEntity.basePeriph false,
          Event.cguEnableEntity CguEntity.baseVadc false,
          Event.cguSetPll0audio (rateAt i.toNat).pll0_msel (rateAt i.toNat).pll0_nsel
            (rateAt i.toNat).pll0_psel,
          Event.cguUpdateClock,
          Event.cguEnableEntity CguEntity.basePeriph true,
          Event.cguEnableEntity CguEntity.baseVadc true])
    else (CmdStatus.errUnsupportedSampleRate, s, [])
  else (CmdStatus.ok, s, [])

/-- The countdown loop of capture_ConfigureCaptureBuffers: highest enabled
DIO bit among 0..k, as (index + 1), or -1 when none is set. -/
def highestDioAux (mask : Nat) : Nat → Int
  | 0 => if mask.testBit 0 then 1 else -1
  | i + 1 => if mask.testBit (i + 1) then ((i : Int) + 2) else highestDioAux mask i

/-- Normalized digital channel count: highest enabled DIO index + 1, or -1
when no DIO0..DIO10 bit is set. -/
def highestDio (mask : Nat) : Int := highestDioAux mask MAX_NUM_DIOS

/-- The BUFFERCONFIG scan of capture_ConfigureCaptureBuffers: first row
matching the analog count and the normalized digital count. -/
def findBufferRow (vadc : Nat) (numDio : Int) : Option buffer_size_cfg_t :=
  BUFFERCONFIG.find? fun r => (r.numVADC == vadc) && ((r.numDio : Int) == numDio)

/-- capture_ConfigureCaptureBuffers of capture.c. -/
def capture_ConfigureCaptureBuffers (cap_cfg : capture_cfg_t) (s : capture_state_t) :
    CmdStatus × capture_state_t :=
  let vadc := cap_cfg.numEnabledVADC
  if vadc = 0 then
    (CmdStatus.ok, { s with sampleBufferSgpio := ⟨0x20000000, 0x10000⟩ })
  else if vadc = NUM_ENABLED_VADC_SHORT_SHOT then
    (CmdStatus.ok, { s with sampleBufferSgpio := ⟨0x20000000, 2 * VADC_SHORT_SHOT_SAMPLES⟩ })
  else
    let vadc := if vadc = NUM_ENABLED_VADC_CALIBRATE then NUM_ENABLED_VADC_CA_ACTUAL else vadc
    if cap_cfg.numEnabledSgpio = 0 then
      (CmdStatus.ok, { s with sampleBufferVADC := ⟨0x20000000, 0x10000⟩ })
    else
      match findBufferRow vadc (highestDio cap_cfg.sgpio.enabledChannels) with
      | some row =>
        (CmdStatus.ok,
         { s with
           sampleBufferSgpio := ⟨0x20000000, row.buffEndSgpio - 0x20000000⟩,
           sampleBufferVADC := ⟨row.buffStartVADC, 0x20010000 - row.buffStartVADC⟩ })
      | none => (CmdStatus.errInvalidSignalCombination, s)

/-- capture_WeightedConfigCheck of capture.c, in the build with
DO_WEIGHTED_CONFIG_CHECK enabled (the disabled build returns OK always). -/
def capture_WeightedConfigCheck (cap_cfg : capture_cfg_t) : CmdStatus :=
  let vadc :=
    if cap_cfg.numEnabledVADC = NUM_ENABLED_VADC_SHORT_SHOT then NUM_ENABLED_VADC_SS_ACTUAL
    else if cap_cfg.numEnabledVADC = NUM_ENABLED_VADC_CALIBRATE then NUM_ENABLED_VADC_CA_ACTUAL
    else cap_cfg.numEnabledVADC
  if cap_cfg.sampleRate < 20000 then CmdStatus.errInvalidSignalCombination
  else if vadc = 0 then
    let tmp := cap_cfg.sgpio.enabledChannels &&& 0x7ff
    if tmp > 0x0ff then
      if cap_cfg.sampleRate > 20000000 then CmdStatus.errInvalidSignalCombination
      else CmdStatus.ok
    else if tmp > 0x00f then
      if cap_cfg.sampleRate > 50000000 then CmdStatus.errInvalidSignalCombination
      else if cap_cfg.sampleRate > 40000000 ∧ cap_cfg.sgpio.enabledTriggers &&& 0x7ff ≠ 0 then
        CmdStatus.errInvalidSignalCombination
      else CmdStatus.ok
    else if tmp > 0x003 then
      if cap_cfg.sampleRate > 80000000 ∧ cap_cfg.sgpio.enabledTriggers &&& 0x7ff ≠ 0 then
        CmdStatus.errInvalidSignalCombination
      else CmdStatus.ok
    else CmdStatus.ok
  else if cap_cfg.numEnabledSgpio = 0 then
    if cap_cfg.sampleRate > 60000000 then CmdStatus.errUnsupportedSampleRate
    else if cap_cfg.sampleRate > 30000000 ∧ vadc ≥ 2 then CmdStatus.errUnsupportedSampleRate
    else CmdStatus.ok
  else
    if cap_cfg.sampleRate > 20000000 then CmdStatus.errInvalidSignalCombination
    else CmdStatus.ok

/-- The part of capture_Configure after the escape switch: LED reset, clear
of the enabled-channel counters, forced-trigger classification, and the
do-while validation / configuration chain. -/
def capture_Configure_tail (cap_cfg : capture_cfg_t) (vadc : Nat) (env : ExtCollab)
    (s0 : capture_state_t) : CmdStatus × capture_state_t × List Event :=
  let evLed := [Event.ledArm false, Event.ledTrig false]
  let s := { s0 with enabledSgpioChannels := 0, enabledVadcChannels := 0 }
  let forcedTrigger : Bool :=
    ! decide ((cap_cfg.numEnabledSgpio > 0 ∧ cap_cfg.sgpio.enabledTriggers > 0) ∨
              (vadc > 0 ∧ cap_cfg.vadc.enabledTriggers > 0))
  if cap_cfg.numEnabledSgpio = 0 ∧ vadc = 0 then
    (CmdStatus.errNoChannelsEnabled, s, evLed)
  else
    let r1 := capture_WeightedConfigCheck cap_cfg
    if r1 ≠ CmdStatus.ok then (r1, s, evLed)
    else
      let t2 := capture_SetSampleRate cap_cfg.sampleRate vadc s
      if t2.1 ≠ CmdStatus.ok then (t2.1, t2.2.1, evLed ++ t2.2.2)
      else
        let t3 := capture_ConfigureCaptureBuffers cap_cfg t2.2.1
        if t3.1 ≠ CmdStatus.ok then (t3.1, t3.2, evLed ++ t2.2.2)
        else
          if cap_cfg.numEnabledSgpio > 0 ∧ env.cap_sgpio_Configure ≠ CmdStatus.ok then
            (env.cap_sgpio_Configure, t3.2,
             evLed ++ t2.2.2 ++ [Event.sgpioConfigure forcedTrigger])
          else
            let evSg := if cap_cfg.numEnabledSgpio > 0 then [Event.sgpioConfigure forcedTrigger]
                        else []
            if vadc > 0 ∧ env.cap_vadc_Configure ≠ CmdStatus.ok then
              (env.cap_vadc_Configure, t3.2,
               evLed ++ t2.2.2 ++ evSg ++ [Event.vadcConfigure forcedTrigger])
            else
              let evVa := if vadc > 0 then [Event.vadcConfigure forcedTrigger] else []
              (CmdStatus.ok,
               { t3.2 with
                 enabledSgpioChannels := cap_cfg.numEnabledSgpio,
                 enabledVadcChannels := vadc },
               evLed ++ t2.2.2 ++ evSg ++ evVa)

/-- capture_Configure of capture.c: classify the request by the escape
value of the analog-channel-count field; a genuine host request stores the
configuration, sets purpose HostRequest and requires the global transition
into capturing (whose failure returns immediately); then run the common
tail. -/
def capture_Configure (cap_cfg : capture_cfg_t) (env : ExtCollab) (s0 : capture_state_t) :
    CmdStatus × capture_state_t × List Event :=
  if cap_cfg.numEnabledVADC = NUM_ENABLED_VADC_SHORT_SHOT then
    capture_Configure_tail cap_cfg NUM_ENABLED_VADC_SS_ACTUAL env
      { s0 with purpose := capture_purpose_t.purposeShortShot }
  else if cap_cfg.numEnabledVADC = NUM_ENABLED_VADC_CALIBRATE then
    capture_Configure_tail cap_cfg NUM_ENABLED_VADC_CA_ACTUAL env
      { s0 with purpose := capture_purpose_t.purposeCalibrate }
  else
    let s1 := { s0 with captureSetup := cap_cfg, purpose := capture_purpose_t.purposeHostRequest }
    if env.statemachineRequestState ≠ CmdStatus.ok then
      (env.statemachineRequestState, s1, [])
    else
      capture_Configure_tail cap_cfg cap_cfg.numEnabledVADC env s1

/-- capture_Arm of capture.c: host-request purpose re-requests the
capturing state; then LED update, reset of the capturedSamples accumulator,
prefill marking, the two-phase engine start. -/
def capture_Arm (env : ExtCollab) (s0 : capture_state_t) :
    CmdStatus × capture_state_t × List Event :=
  if s0.purpose = capture_purpose_t.purposeHostRequest ∧
     env.statemachineRequestState ≠ CmdStatus.ok then
    (env.statemachineRequestState, s0, [])
  else
    let ev0 := [Event.ledArm true, Event.ledTrig false, Event.prefillSetAsNeeded]
    let s := { s0 with capturedSamples := emptyCapturedSamples }
    if s.enabledSgpioChannels > 0 ∧ env.cap_sgpio_PrepareToArm ≠ CmdStatus.ok then
      (env.cap_sgpio_PrepareToArm, s, ev0 ++ [Event.sgpioPrepareToArm])
    else
      let evSgPrep := if s.enabledSgpioChannels > 0 then [Event.sgpioPrepareToArm]
                      else [Event.prefillMarkSgpioDone]
      if s.enabledVadcChannels > 0 ∧ env.cap_vadc_PrepareToArm ≠ CmdStatus.ok then
        (env.cap_vadc_PrepareToArm, s, ev0 ++ evSgPrep ++ [Event.vadcPrepareToArm])
      else
        let evVaPrep := if s.enabledVadcChannels > 0 then [Event.vadcPrepareToArm]
                        else [Event.prefillMarkVadcDone]
        let evArm := (if s.enabledSgpioChannels > 0 then [Event.sgpioArm] else []) ++
                     (if s.enabledVadcChannels > 0 then [Event.vadcArm] else [])
        (CmdStatus.ok, s, ev0 ++ evSgPrep ++ evVaPrep ++ evArm)

/-- capture_Disarm of capture.c: LEDs off, disarm every enabled engine,
always OK. -/
def capture_Disarm (s : capture_state_t) : CmdStatus × capture_state_t × List Event :=
  (CmdStatus.ok, s,
   [Event.ledArm false, Event.ledTrig false] ++
   (if s.enabledSgpioChannels > 0 then [Event.sgpioDisarm] else []) ++
   (if s.enabledVadcChannels > 0 then [Event.vadcDisarm] else []))

/-- capture_Init of capture.c: LEDs off, full-region buffers, initial
sample rate (index 14), cleared accumulator, DIO direction setup, engine
initialization. -/
def capture_Init (s : capture_state_t) : capture_state_t × List Event :=
  ({ s with
     sampleBufferSgpio := ⟨0x20000000, 0x10000⟩,
     sampleBufferVADC := ⟨0x20000000, 0x10000⟩,
     currentSampleRateIdx := INITIAL_SAMPLE_RATE_IDX,
     capturedSamples := emptyCapturedSamples },
   [Event.ledArm false, Event.ledTrig false,
    Event.cguSetPll0audio (rateAt INITIAL_SAMPLE_RATE_IDX).pll0_msel
      (rateAt INITIAL_SAMPLE_RATE_IDX).pll0_nsel (rateAt INITIAL_SAMPLE_RATE_IDX).pll0_psel,
    Event.cguUpdateClock,
    Event.gpioDirSetup, Event.sgpioInit, Event.vadcInit])

/-- capture_ReportSGPIODone of capture.c: merge the digital half into the
accumulator; notify outward only when the analog engine is disabled or has
already deposited its buffer. -/
def capture_ReportSGPIODone (buff : circbuff_t) (trigpoint triggerSample activeChannels : Nat)
    (s : capture_state_t) : capture_state_t × List Event :=
  let cs := { s.capturedSamples with
    trigpoint := s.capturedSamples.trigpoint ||| trigpoint,
    sgpioTrigSample := triggerSample,
    sgpioActiveChannels := activeChannels,
    sgpio_samples := some buff }
  let s1 := { s with capturedSamples := cs }
  if s1.enabledVadcChannels = 0 ∨ cs.vadc_samples ≠ none then
    (s1, [Event.sendSamples cs])
  else (s1, [])

/-- capture_ReportVADCDone of capture.c: merge the analog half (its trigger
bits shifted into the high 16 bits, with 32-bit wraparound) into the
accumulator; notify outward only when the digital engine is disabled or has
already deposited its buffer. -/
def capture_ReportVADCDone (buff : circbuff_t) (trigpoint triggerSample activeChannels : Nat)
    (s : capture_state_t) : capture_state_t × List Event :=
  let cs := { s.capturedSamples with
    trigpoint := s.capturedSamples.trigpoint ||| ((trigpoint <<< 16) % 2 ^ 32),
    vadcTrigSample := triggerSample,
    vadcActiveChannels := activeChannels,
    vadc_samples := some buff }
  let s1 := { s with capturedSamples := cs }
  if s1.enabledSgpioChannels = 0 ∨ cs.sgpio_samples ≠ none then
    (s1, [Event.sendSamples cs])
  else (s1, [])

/-- capture_ReportSGPIOSamplingFailed of capture.c. -/
def capture_ReportSGPIOSamplingFailed (error : CmdStatus) (s : capture_state_t) :
    capture_state_t × List Event :=
  if s.enabledVadcChannels = 0 then (s, [Event.signalFailedSampling error]) else (s, [])

/-- capture_ReportVADCSamplingFailed of capture.c. -/
def capture_ReportVADCSamplingFailed (error : CmdStatus) (s : capture_state_t) :
    capture_state_t × List Event :=
  if s.enabledSgpioChannels = 0 then (s, [Event.signalFailedSampling error]) else (s, [])

/-- capture_ConfigureForCalibration of capture.c: synthesize the transient
calibration setup (only the listed fields are written; the rest of the
persistent calibrationSetup is kept), configure, and arm on success. -/
def capture_ConfigureForCalibration (env : ExtCollab) (voltsPerDiv : Nat) (vadc : Nat)
    (s0 : capture_state_t) : CmdStatus × capture_state_t × List Event :=
  let val := voltsPerDiv &&& 0x7
  let c := { s0.calibrationSetup with
    numEnabledSgpio := 0,
    numEnabledVADC := vadc,
    sampleRate := 1000000,
    postFill := 0x0fffff00 ||| 100,
    sgpio := { s0.calibrationSetup.sgpio with enabledChannels := 0 },
    vadc := { enabledChannels := 3, enabledTriggers := 0,
              voltPerDiv := val ||| (val <<< 4), couplings := 0, noiseReduction := 0 } }
  let s := { s0 with calibrationSetup := c }
  let t := capture_Configure c env s
  if t.1 = CmdStatus.ok then
    let t2 := capture_Arm env t.2.1
    (t2.1, t2.2.1, t.2.2 ++ t2.2.2)
  else (t.1, t.2.1, t.2.2)

/-- capture_HotSandby of capture.c (source spelling): reinitialize, enter
the short-shot calibration-probe configuration, arm; the most recent
failure wins as the returned status. -/
def capture_HotSandby (env : ExtCollab) (s : capture_state_t) :
    CmdStatus × capture_state_t × List Event :=
  let t0 := capture_Init s
  let t1 := capture_ConfigureForCalibration env (ANALOG_IN_RANGES - 1)
    NUM_ENABLED_VADC_SHORT_SHOT t0.1
  let t2 := capture_Arm env t1.2.1
  ((if t2.1 ≠ CmdStatus.ok then t2.1 else if t1.1 ≠ CmdStatus.ok then t1.1 else CmdStatus.ok),
   t2.2.1, t0.2 ++ t1.2.2 ++ t2.2.2)

/-- capture_Stop of capture.c: disarm, record host intent Disarmed when it
was Armed, hot standby; the most recent failure wins as the returned
status. -/
def capture_Stop (env : ExtCollab) (s : capture_state_t) :
    CmdStatus × capture_state_t × List Event :=
  let t1 := capture_Disarm s
  let s2 := if t1.2.1.hostRequest = capture_host_request_t.hostArmed then
              { t1.2.1 with hostRequest := capture_host_request_t.hostDisarmed }
            else t1.2.1
  let t2 := capture_HotSandby env s2
  ((if t2.1 ≠ CmdStatus.ok then t2.1 else if t1.1 ≠ CmdStatus.ok then t1.1 else CmdStatus.ok),
   t2.2.1, t1.2.2 ++ t2.2.2)

/-! Host-side calibration computation (labtoolcalibrationdata.cpp).
IEEE doubles/floats are modelled as `Option ℚ` (`none` = NaN or infinity);
values are exact (no rounding); a division by zero yields `none` and every
operation propagates `none`. -/

/-- A double: `none` models a non-finite value. -/
abbrev D := Option ℚ

/-- Double addition. -/
def dAdd : D → D → D
  | some a, some b => some (a + b)
  | _, _ => none

/-- Double subtraction. -/
def dSub : D → D → D
  | some a, some b => some (a - b)
  | _, _ => none

/-- Double multiplication. -/
def dMul : D → D → D
  | some a, some b => some (a * b)
  | _, _ => none

/-- Double division: dividing by zero produces a non-finite value. -/
def dDiv : D → D → D
  | some a, some b => if b = 0 then none else some (a / b)
  | _, _ => none

/-- LabToolCalibrationData::isInfiniteOrNan on the double model. -/
def isInfiniteOrNan : D → Bool
  | none => true
  | some _ => false

/-- The raw calibration record (struct calib_result in
labtoolcalibrationdata.h).  quint32 fields are Nats taken mod 2^32 where C
arithmetic wraps; int fields are Ints. -/
structure calib_result where
  cmd : Nat
  checksum : Nat
  version : Nat
  dacValOut : Fin 3 → Nat
  userOut : Fin 2 → Fin 3 → Int
  voltsInLow : Fin 8 → Int
  voltsInHigh : Fin 8 → Int
  inLow : Fin 2 → Fin 8 → Nat
  inHigh : Fin 2 → Fin 8 → Nat

/-- LabToolDeviceSpec::spiDacClipValue: clip a DAC code to 0..1023. -/
def spiDacClipValue (val : Int) : Int :=
  if val < 0 then 0 else if val > 1023 then 1023 else val

/-- C float-to-int conversion (truncation toward zero) on the exact value. -/
def truncQ (q : ℚ) : Int := if 0 ≤ q then q.floor else -((-q).floor)

/-- LabToolCalibrationData::estimateActualDacVoltage: fit the measured DAC
output against the DAC codes at the low and high calibration points, invert
the fit for the target millivolt value, clip to the DAC range, and return
the voltage the fit predicts at the clipped code, scaled to volts.  A
non-finite intermediate (for example equal low and high DAC codes) makes
the result non-finite. -/
def estimateActualDacVoltage (r : calib_result) (ch : Fin 2) (targetMv : Int) : D :=
  let dL : ℚ := (r.dacValOut 0 : ℚ)
  let dH : ℚ := (r.dacValOut 2 : ℚ)
  let vL : ℚ := (r.userOut ch 0 : ℚ)
  let vH : ℚ := (r.userOut ch 2 : ℚ)
  let b : D := dDiv (some (vH - vL)) (some (dH - dL))
  let a : D := dSub (some vL) (dMul b (some dL))
  match dDiv (dSub (some (targetMv : ℚ)) a) b with
  | none => none
  | some q =>
    let dacIn : Int := spiDacClipValue (truncQ q)
    dDiv (dAdd a (dMul b (some (dacIn : ℚ)))) (some 1000)

/-- Unsigned 32-bit subtraction, as the C expression inLow - inHigh on
quint32 computes it (wraps modulo 2^32). -/
def u32sub (x y : Nat) : Nat := (x % 2 ^ 32 + 2 ^ 32 - y % 2 ^ 32) % 2 ^ 32

/-- The estimated voltage at the low calibration target of cell (ch, i). -/
def calibVin1 (r : calib_result) (ch : Fin 2) (i : Fin 8) : D :=
  estimateActualDacVoltage r ch (r.voltsInLow i)

/-- The estimated voltage at the high calibration target of cell (ch, i). -/
def calibVin2 (r : calib_result) (ch : Fin 2) (i : Fin 8) : D :=
  estimateActualDacVoltage r ch (r.voltsInHigh i)

/-- The slope B of cell (ch, i), as the constructor computes it: the
divisor is the unsigned 32-bit difference of the measured input codes. -/
def calibB (r : calib_result) (ch : Fin 2) (i : Fin 8) : D :=
  dDiv (dSub (calibVin1 r ch i) (calibVin2 r ch i))
    (some (u32sub (r.inLow ch i) (r.inHigh ch i) : ℚ))

/-- The intercept A of cell (ch, i): A = vin1 - B * codeLow. -/
def calibA (r : calib_result) (ch : Fin 2) (i : Fin 8) : D :=
  dSub (calibVin1 r ch i) (dMul (calibB r ch i) (some (r.inLow ch i : ℚ)))

/-- The slope of cell (ch, i) as the specification words it: the divisor
is the signed difference codeIn1 - codeIn2 of the measured input codes.
Stated for comparison against calibB, which the constructor computes. -/
def calibB_spec (r : calib_result) (ch : Fin 2) (i : Fin 8) : D :=
  dDiv (dSub (calibVin1 r ch i) (calibVin2 r ch i))
    (some (((r.inLow ch i : Int) - (r.inHigh ch i : Int) : Int) : ℚ))

/-- One cell's contribution to the reasonableness flag: both factors
finite and of magnitude at most 1000. -/
def cellReasonable (r : calib_result) (ch : Fin 2) (i : Fin 8) : Bool :=
  match calibA r ch i, calibB r ch i with
  | some a, some b => decide (-1000 ≤ a ∧ a ≤ 1000 ∧ -1000 ≤ b ∧ b ≤ 1000)
  | _, _ => false

/-- LabToolCalibrationData::isDataReasonable after construction: the
constructor loop starts the flag at true and latches it false at the
first offending cell (later cells are no longer checked, though their
factors are still computed). -/
def isDataReasonable (r : calib_result) : Bool :=
  (List.finRange 8).foldl (fun acc i =>
    (List.finRange 2).foldl (fun acc2 ch =>
      if acc2 then cellReasonable r ch i else false) acc) true

/-- LabToolCalibrationData::isDefaultData. -/
def isDefaultData (r : calib_result) : Bool :=
  r.checksum == 0x00dead00 || r.version == 0x00dead00

/-- Reachability invariant of the sample-rate context: whenever the
recorded channel-count context is 2 analog channels, the currently active
rate does not resolve (for 2 channels) to an entry with counter 1 — such a
change would have been rejected.  Established by capture_Init and preserved
by capture_SetSampleRate (see rateCtxInv_init and rateCtxInv_preserved). -/
def rateCtxInv (s : capture_state_t) : Prop :=
  s.lastNumVADC = 2 →
    capture_FindSampleRateIndex (rateAt s.currentSampleRateIdx).sampleRate 2 = -1 ∨
    (rateAt (capture_FindSampleRateIndex (rateAt s.currentSampleRateIdx).sampleRate 2).toNat).counter ≠ 1

instance (s : capture_state_t) : Decidable (rateCtxInv s) := by
  unfold rateCtxInv; infer_instance

/-- The escape resolution capture_Configure applies to the
analog-channel-count field. -/
def resolvedVadc (n : Nat) : Nat :=
  if n = NUM_ENABLED_VADC_SHORT_SHOT then NUM_ENABLED_VADC_SS_ACTUAL
  else if n = NUM_ENABLED_VADC_CALIBRATE then NUM_ENABLED_VADC_CA_ACTUAL
  else n

/-- Test fixture: a raw calibration record whose DAC fit is the identity
millivolt line (codes 0 and 1000 measured as 0 mV and 1000 mV) and whose
input codes at cell level are 100 (low) and 200 (high), so the measured
low code is smaller than the high code in every cell. -/
def cexCalib : calib_result where
  cmd := 0
  checksum := 0
  version := 0
  dacValOut := fun i => if i.val = 2 then 1000 else 0
  userOut := fun _ j => if j.val = 2 then 1000 else 0
  voltsInLow := fun _ => 500
  voltsInHigh := fun _ => 250
  inLow := fun _ _ => 100
  inHigh := fun _ _ => 200

/-- Test fixture: as cexCalib but with every input-code pair equal
(100, 100), the corrupted-cell shape of the specification's test. -/
def cexCalibEq : calib_result where
  cmd := 0
  checksum := 0
  version := 0
  dacValOut := fun i => if i.val = 2 then 1000 else 0
  userOut := fun _ j => if j.val = 2 then 1000 else 0
  voltsInLow := fun _ => 500
  voltsInHigh := fun _ => 250
  inLow := fun _ _ => 100
  inHigh := fun _ _ => 100

/-- Test fixture: as cexCalib but with exactly one corrupted cell, channel
0 range 0, whose input-code pair is made equal (100, 100); every other
cell keeps the (100, 200) pair. -/
def cexCalibOne : calib_result :=
  { cexCalib with inHigh := fun ch i => if ch.val = 0 ∧ i.val = 0 then 100 else 200 }

/-- Test fixture: the all-zero configuration blob. -/
def zeroCfg : capture_cfg_t := ⟨0, 0, 0, 0, ⟨0, 0⟩, ⟨0, 0, 0, 0, 0⟩⟩

/-- Test fixture: the controller state right after capture_Init on the
static initializer of capture.c (sample-rate index 14, everything else
cleared, lastNumVADC still -1). -/
def initCapState : capture_state_t where
  sampleBufferSgpio := ⟨0x20000000, 0x10000⟩
  sampleBufferVADC := ⟨0x20000000, 0x10000⟩
  enabledSgpioChannels := 0
  enabledVadcChannels := 0
  currentSampleRateIdx := INITIAL_SAMPLE_RATE_IDX
  lastNumVADC := -1
  capturedSamples := emptyCapturedSamples
  calibrationSetup := zeroCfg
  captureSetup := zeroCfg
  purpose := capture_purpose_t.purposeNone
  hostRequest := capture_host_request_t.hostDoesNothing

/-- Test fixture: the all-OK collaborator oracle. -/
def envOK : ExtCollab :=
  ⟨CmdStatus.ok, CmdStatus.ok, CmdStatus.ok, CmdStatus.ok, CmdStatus.ok⟩

/-- Test fixture: the post-init state with one digital and one analog
channel enabled. -/
def armW : capture_state_t :=
  { initCapState with enabledSgpioChannels := 1, enabledVadcChannels := 1 }

/-!  Theorems.  -/

/-- Soundness of one table scan: a returned relative index holds exactly
the wanted rate. -/
theorem tableLookup_sound (l : List sample_rate_cfg_t) (w j : Nat)
    (h : tableLookup l w = some j) : (l.getD j sentinelCfg).sampleRate = w := by
  induction l generalizing j with
  | nil => simp [tableLookup] at h
  | cons c rest ih =>
    by_cases h0 : c.sampleRate = 0
    · simp [tableLookup, h0] at h
    · by_cases hw : c.sampleRate = w
      · simp [tableLookup, h0, hw] at h
        rcases h with ⟨-, rfl⟩
        simpa [List.getD] using hw
      · simp [tableLookup, h0, hw] at h
        obtain ⟨j', hj', rfl⟩ := h
        simpa [List.getD] using ih j' hj'

/-- Unfolding of activeRates at a cons cell. -/
theorem activeRates_cons (c : sample_rate_cfg_t) (rest : List sample_rate_cfg_t) :
    activeRates (c :: rest) =
      if c.sampleRate = 0 then [] else c.sampleRate :: activeRates rest := by
  by_cases h : c.sampleRate = 0 <;> simp [activeRates, List.takeWhile_cons, h]

/-- Completeness of one table scan: the scan succeeds exactly for the
rates of the leading sentinel-free part of the slice. -/
theorem tableLookup_isSome_iff (l : List sample_rate_cfg_t) (w : Nat) :
    (tableLookup l w).isSome ↔ w ∈ activeRates l := by
  induction l with
  | nil => simp [tableLookup, activeRates]
  | cons c rest ih =>
    rw [activeRates_cons]
    by_cases h0 : c.sampleRate = 0
    · simp [tableLookup, h0]
    · by_cases hw : c.sampleRate = w
      · simp [tableLookup, h0, hw]
      · simp only [tableLookup, if_neg h0, if_neg hw, if_neg h0, List.mem_cons]
        constructor
        · intro h
          right
          exact (ih).mp (by simpa [Option.isSome_map] using h)
        · intro h
          rcases h with h | h
          · exact absurd h.symm hw
          · simpa [Option.isSome_map] using (ih).mpr h

/-- getD commutes with drop. -/
theorem getD_drop (l : List sample_rate_cfg_t) (n j : Nat) (d : sample_rate_cfg_t) :
    (l.drop n).getD j d = l.getD (n + j) d := by
  induction n generalizing l with
  | zero => simp
  | succ n ih =>
    cases l with
    | nil => simp [List.getD]
    | cons c rest => rw [List.drop_succ_cons, ih rest, Nat.add_right_comm, List.getD_cons_succ]

/-- Exact-match soundness of the full search: a found index holds exactly
the wanted rate. -/
theorem find_sound (w n : Nat) (h : capture_FindSampleRateIndex w n ≠ -1) :
    (rateAt (capture_FindSampleRateIndex w n).toNat).sampleRate = w := by
  unfold capture_FindSampleRateIndex at h ⊢
  rcases hd : (if n = 0 then tableLookup (RATECONFIG.drop SGPIO_ONLY_OFFSET) w else none) with
    _ | j
  · rcases hg : tableLookup RATECONFIG w with _ | j
    · rw [hd, hg] at h; simp at h
    · simpa [rateAt] using tableLookup_sound RATECONFIG w j hg
  · have hj : tableLookup (RATECONFIG.drop SGPIO_ONLY_OFFSET) w = some j := by
      by_cases hn : n = 0
      · simpa [hn] using hd
      · simp [hn] at hd
    have hs := tableLookup_sound _ w j hj
    rw [getD_drop] at hs
    simpa [rateAt] using hs

/-- C3: capture_FindSampleRateIndex requires an exact match on the table's
sampleRate field (no interpolation); with numVADC = 0 the digital-only
sub-range (from SGPIO_ONLY_OFFSET to its sentinel) is searched first with
the general sub-range as fallback; with numVADC > 0 only the general
sub-range is searched, so a rate present only in the digital-only sub-range
is found exactly when numVADC = 0; every rate of the general sub-range is
found, and with numVADC > 0 its sole matching index is returned; any other
rate yields NotFound (-1). -/
theorem capture_FindSampleRateIndex_spec :
    (∀ w n, capture_FindSampleRateIndex w n ≠ -1 →
        (rateAt (capture_FindSampleRateIndex w n).toNat).sampleRate = w) ∧
    (∀ w n, n ≠ 0 →
        capture_FindSampleRateIndex w n =
          (match tableLookup RATECONFIG w with
           | some j => ((j : Nat) : Int)
           | none => -1)) ∧
    (∀ w, w ∈ sgpioOnlyRates → w ∉ generalRates →
        capture_FindSampleRateIndex w 0 ≠ -1 ∧
        ∀ n, n ≠ 0 → capture_FindSampleRateIndex w n = -1) ∧
    (∀ w n, w ∈ generalRates → capture_FindSampleRateIndex w n ≠ -1) ∧
    (∀ n, n ≠ 0 → ∀ j, j < 24 →
        capture_FindSampleRateIndex (rateAt j).sampleRate n = (j : Int)) ∧
    (∀ w n, w ∉ generalRates → w ∉ sgpioOnlyRates → capture_FindSampleRateIndex w n = -1) := by
  have hgen : ∀ w, (tableLookup RATECONFIG w).isSome ↔ w ∈ generalRates := fun w =>
    tableLookup_isSome_iff RATECONFIG w
  have hdig : ∀ w, (tableLookup (RATECONFIG.drop SGPIO_ONLY_OFFSET) w).isSome ↔
      w ∈ sgpioOnlyRates := fun w => tableLookup_isSome_iff _ w
  refine ⟨find_sound, ?_, ?_, ?_, ?_, ?_⟩
  · intro w n hn
    unfold capture_FindSampleRateIndex
    simp [hn]
  · intro w hwd hwg
    have hg : tableLookup RATECONFIG w = none := by
      rcases h : tableLookup RATECONFIG w with _ | j
      · rfl
      · exact absurd ((hgen w).mp (by simp [h])) hwg
    constructor
    · unfold capture_FindSampleRateIndex
      rcases hd : tableLookup (RATECONFIG.drop SGPIO_ONLY_OFFSET) w with _ | j
      · exact absurd ((hdig w).mpr hwd) (by simp [hd])
      · simp
        omega
    · intro n hn
      unfold capture_FindSampleRateIndex
      simp [hn, hg]
  · intro w n hw
    unfold capture_FindSampleRateIndex
    rcases hg : tableLookup RATECONFIG w with _ | j
    · exact absurd ((hgen w).mpr hw) (by simp [hg])
    · rcases hd : (if n = 0 then tableLookup (RATECONFIG.drop SGPIO_ONLY_OFFSET) w else none)
        with _ | j2
      · simp
      · simp
        omega
  · intro n hn j hj
    have h24 := (by decide :
      ∀ j, j < 24 → tableLookup RATECONFIG (rateAt j).sampleRate = some j) j hj
    unfold capture_FindSampleRateIndex
    simp [hn, h24]
  · intro w n hwg hwd
    have hg : tableLookup RATECONFIG w = none := by
      rcases h : tableLookup RATECONFIG w with _ | j
      · rfl
      · exact absurd ((hgen w).mp (by simp [h])) hwg
    have hd : tableLookup (RATECONFIG.drop SGPIO_ONLY_OFFSET) w = none := by
      rcases h : tableLookup (RATECONFIG.drop SGPIO_ONLY_OFFSET) w with _ | j
      · rfl
      · exact absurd ((hdig w).mp (by simp [h])) hwd
    unfold capture_FindSampleRateIndex
    by_cases hn : n = 0 <;> simp [hn, hg, hd]

/-- C3 witness: the spec theorem applied at concrete inputs: 90 MHz is a
digital-only rate, found at index 33 with no analog channels and rejected
with one analog channel; 2 MHz is a general rate found at its sole index
14; 25 kHz is in neither sub-range and yields -1. -/
theorem capture_FindSampleRateIndex_spec_witness :
    capture_FindSampleRateIndex 90000000 0 ≠ -1 ∧
    capture_FindSampleRateIndex 90000000 1 = -1 ∧
    capture_FindSampleRateIndex 2000000 1 = 14 ∧
    capture_FindSampleRateIndex 25000 1 = -1 := by
  refine ⟨?_, ?_, ?_, ?_⟩
  · exact (capture_FindSampleRateIndex_spec.2.2.1 90000000 (by decide) (by decide)).1
  · exact (capture_FindSampleRateIndex_spec.2.2.1 90000000 (by decide) (by decide)).2 1
      (by decide)
  · have := capture_FindSampleRateIndex_spec.2.2.2.2.1 1 (by decide) 14 (by decide)
    simpa using this
  · exact capture_FindSampleRateIndex_spec.2.2.2.2.2 25000 1 (by decide) (by decide)

/-- C8 counterexample: two identical capture_SetSampleRate calls whose rate
(25 kHz) is in no sub-range: the second call is not a success (the claim
says the second call returns success), though it issues no events. -/
theorem capture_SetSampleRate_repeat_not_ok :
    (capture_SetSampleRate 25000 1 (capture_SetSampleRate 25000 1 initCapState).2.1).1 =
      CmdStatus.errUnsupportedSampleRate ∧
    (capture_SetSampleRate 25000 1 (capture_SetSampleRate 25000 1 initCapState).2.1).1 ≠
      CmdStatus.ok := by decide

/-- C8 (amended): a second capture_SetSampleRate call with the same
(wantedRate, numVADC) context issues no CGU peripheral-domain disable or
enable calls and no PLL reprogramming (empty event trace), leaves the state
unchanged, and returns the same status as the first call; in particular
when the first call succeeded the second is a no-op returning success, so
the disable / switch / re-enable cycle runs at most once. -/
theorem capture_SetSampleRate_idempotent (w n : Nat) (s : capture_state_t) :
    (capture_SetSampleRate w n (capture_SetSampleRate w n s).2.1).2.2 = [] ∧
    (capture_SetSampleRate w n (capture_SetSampleRate w n s).2.1).2.1 =
      (capture_SetSampleRate w n s).2.1 ∧
    (capture_SetSampleRate w n (capture_SetSampleRate w n s).2.1).1 =
      (capture_SetSampleRate w n s).1 := by
  by_cases hc : w ≠ (rateAt s.currentSampleRateIdx).sampleRate ∨ s.lastNumVADC ≠ (n : Int)
  · by_cases hf : capture_FindSampleRateIndex w n = -1
    · have h1 : capture_SetSampleRate w n s = (CmdStatus.errUnsupportedSampleRate, s, []) := by
        simp only [capture_SetSampleRate]
        rw [if_pos hc, if_neg (not_not_intro hf)]
      rw [h1]
      simp [h1]
    · by_cases hctr : n = 2 ∧ (rateAt (capture_FindSampleRateIndex w n).toNat).counter = 1
      · have h1 : capture_SetSampleRate w n s = (CmdStatus.errUnsupportedSampleRate, s, []) := by
          simp only [capture_SetSampleRate]
          rw [if_pos hc, if_pos hf, if_pos hctr]
        rw [h1]
        simp [h1]
      · have hw : (rateAt (capture_FindSampleRateIndex w n).toNat).sampleRate = w :=
          find_sound w n hf
        set s1 : capture_state_t :=
          { s with currentSampleRateIdx := (capture_FindSampleRateIndex w n).toNat,
                   lastNumVADC := (n : Int) } with hs1
        have h1 : capture_SetSampleRate w n s =
            (CmdStatus.ok, s1,
             [Event.cguEnableEntity CguEntity.basePeriph false,
              Event.cguEnableEntity CguEntity.baseVadc false,
              Event.cguSetPll0audio (rateAt (capture_FindSampleRateIndex w n).toNat).pll0_msel
                (rateAt (capture_FindSampleRateIndex w n).toNat).pll0_nsel
                (rateAt (capture_FindSampleRateIndex w n).toNat).pll0_psel,
              Event.cguUpdateClock,
              Event.cguEnableEntity CguEntity.basePeriph true,
              Event.cguEnableEntity CguEntity.baseVadc true]) := by
          simp only [capture_SetSampleRate]
          rw [if_pos hc, if_pos hf, if_neg hctr]
        have h2 : capture_SetSampleRate w n s1 = (CmdStatus.ok, s1, []) := by
          simp only [capture_SetSampleRate]
          rw [if_neg (by simp [hs1, hw])]
        rw [h1]
        simp [h2]
  · have h1 : capture_SetSampleRate w n s = (CmdStatus.ok, s, []) := by
      simp only [capture_SetSampleRate]
      rw [if_neg hc]
    rw [h1]
    simp [h1]

/-- The sample-rate context invariant holds for the post-init state. -/
theorem rateCtxInv_initCapState : rateCtxInv initCapState := by decide

/-- capture_Init establishes the sample-rate context invariant: the initial
index 14 (2 MHz) resolves for two channels to counter 40. -/
theorem rateCtxInv_init (s : capture_state_t) : rateCtxInv (capture_Init s).1 := by
  have hidx : (capture_Init s).1.currentSampleRateIdx = INITIAL_SAMPLE_RATE_IDX := rfl
  unfold rateCtxInv
  rw [hidx]
  intro _
  right
  decide

/-- capture_SetSampleRate preserves the sample-rate context invariant: a
2-channel context is only ever recorded together with an index it resolves
to, and that resolution was checked not to have counter 1. -/
theorem rateCtxInv_preserved (w n : Nat) (s : capture_state_t) (h : rateCtxInv s) :
    rateCtxInv (capture_SetSampleRate w n s).2.1 := by
  by_cases hc : w ≠ (rateAt s.currentSampleRateIdx).sampleRate ∨ s.lastNumVADC ≠ (n : Int)
  · by_cases hf : capture_FindSampleRateIndex w n = -1
    · have h1 : capture_SetSampleRate w n s = (CmdStatus.errUnsupportedSampleRate, s, []) := by
        simp only [capture_SetSampleRate]
        rw [if_pos hc, if_neg (not_not_intro hf)]
      rw [h1]
      exact h
    · by_cases hctr : n = 2 ∧ (rateAt (capture_FindSampleRateIndex w n).toNat).counter = 1
      · have h1 : capture_SetSampleRate w n s = (CmdStatus.errUnsupportedSampleRate, s, []) := by
          simp only [capture_SetSampleRate]
          rw [if_pos hc, if_pos hf, if_pos hctr]
        rw [h1]
        exact h
      · have hw := find_sound w n hf
        have h1 : capture_SetSampleRate w n s =
            (CmdStatus.ok,
             { s with currentSampleRateIdx := (capture_FindSampleRateIndex w n).toNat,
                      lastNumVADC := (n : Int) },
             [Event.cguEnableEntity CguEntity.basePeriph false,
              Event.cguEnableEntity CguEntity.baseVadc false,
              Event.cguSetPll0audio (rateAt (capture_FindSampleRateIndex w n).toNat).pll0_msel
                (rateAt (capture_FindSampleRateIndex w n).toNat).pll0_nsel
                (rateAt (capture_FindSampleRateIndex w n).toNat).pll0_psel,
              Event.cguUpdateClock,
              Event.cguEnableEntity CguEntity.basePeriph true,
              Event.cguEnableEntity CguEntity.baseVadc true]) := by
          simp only [capture_SetSampleRate]
          rw [if_pos hc, if_pos hf, if_neg hctr]
        rw [h1]
        unfold rateCtxInv
        intro h2
        have h2i : (n : Int) = 2 := h2
        have hn : n = 2 := by exact_mod_cast h2i
        subst hn
        right
        show (rateAt (capture_FindSampleRateIndex
          (rateAt (capture_FindSampleRateIndex w 2).toNat).sampleRate 2).toNat).counter ≠ 1
        rw [hw]
        intro hcc
        exact hctr ⟨rfl, hcc⟩
  · have h1 : capture_SetSampleRate w n s = (CmdStatus.ok, s, []) := by
      simp only [capture_SetSampleRate]
      rw [if_neg hc]
    rw [h1]
    exact h

/-- C4: in every state satisfying the reachability invariant, a
capture_SetSampleRate call requesting 2 analog channels at a rate whose
resolved RATECONFIG entry has counter 1 returns the unsupported-sample-rate
error, performs no PLL or peripheral-domain clock call (empty trace), and
leaves the state (in particular the current sample-rate index) unchanged. -/
theorem capture_SetSampleRate_counter_one_rejected (w : Nat) (s : capture_state_t)
    (hinv : rateCtxInv s)
    (hf : capture_FindSampleRateIndex w 2 ≠ -1)
    (hctr : (rateAt (capture_FindSampleRateIndex w 2).toNat).counter = 1) :
    capture_SetSampleRate w 2 s = (CmdStatus.errUnsupportedSampleRate, s, []) := by
  by_cases hc : w ≠ (rateAt s.currentSampleRateIdx).sampleRate ∨
      s.lastNumVADC ≠ ((2 : Nat) : Int)
  · simp only [capture_SetSampleRate]
    rw [if_pos hc, if_pos hf, if_pos ⟨by decide, hctr⟩]
  · push_neg at hc
    obtain ⟨hrate, hlast⟩ := hc
    have hl2 : s.lastNumVADC = 2 := by exact_mod_cast hlast
    have hres := hinv hl2
    rw [← hrate] at hres
    rcases hres with hres | hres
    · exact absurd hres hf
    · exact absurd hctr hres

/-- C4 witness: 50 MHz resolves (for 2 analog channels) to index 20 whose
counter is 1; the rejection theorem applies at the post-init state. -/
theorem capture_SetSampleRate_counter_one_rejected_witness :
    capture_SetSampleRate 50000000 2 initCapState =
      (CmdStatus.errUnsupportedSampleRate, initCapState, []) :=
  capture_SetSampleRate_counter_one_rejected 50000000 initCapState
    rateCtxInv_initCapState (by decide) (by decide)

/-- Characterization of the highest-enabled-DIO countdown loop: either no
bit among 0..k is set and the result is -1, or the result is the highest
set bit index plus one. -/
theorem highestDioAux_spec (mask : Nat) (k : Nat) :
    (highestDioAux mask k = -1 ∧ ∀ i, i ≤ k → mask.testBit i = false) ∨
    (∃ i, i ≤ k ∧ mask.testBit i = true ∧ highestDioAux mask k = (i : Int) + 1 ∧
      ∀ j, j ≤ k → mask.testBit j = true → j ≤ i) := by
  induction k with
  | zero =>
    cases h : mask.testBit 0 with
    | false =>
      left
      exact ⟨by simp [highestDioAux, h], fun i hi => by rw [Nat.le_zero.mp hi]; exact h⟩
    | true =>
      right
      exact ⟨0, Nat.le_refl 0, h, by simp [highestDioAux, h], fun j hj _ => hj⟩
  | succ k ih =>
    cases h : mask.testBit (k + 1) with
    | true =>
      right
      refine ⟨k + 1, Nat.le_refl _, h, ?_, fun j hj _ => hj⟩
      simp only [highestDioAux, h, if_true]
      push_cast
      ring
    | false =>
      rcases ih with ⟨hv, hall⟩ | ⟨i, hik, hbit, hval, hmax⟩
      · left
        refine ⟨by simp [highestDioAux, h, hv], ?_⟩
        intro i hi
        by_cases hik : i ≤ k
        · exact hall i hik
        · have : i = k + 1 := by omega
          rw [this]
          exact h
      · right
        refine ⟨i, Nat.le_succ_of_le hik, hbit, by simp [highestDioAux, h, hval], ?_⟩
        intro j hj hbj
        by_cases hjk : j ≤ k
        · exact hmax j hjk hbj
        · have hj1 : j = k + 1 := by omega
          rw [hj1, h] at hbj
          exact absurd hbj (by simp)

/-- C5: buffer planning.  With no analog channels (escape-resolved), or
with analog channels but no digital channels, a single buffer spans the
whole physical region 0x20000000..0x20010000; in the mixed case the digital
count is normalized to highest-enabled-DIO-index + 1 and looked up with the
analog count in BUFFERCONFIG: a hit creates the digital buffer up to the
row's buffEndSGPIO and the analog buffer from the row's buffStartVADC to
the top of the region (with buffEndSGPIO ≤ buffStartVADC, any gap unused),
a miss returns the invalid-signal-combination error. -/
theorem capture_ConfigureCaptureBuffers_plan (cap_cfg : capture_cfg_t) (s : capture_state_t)
    (hss : cap_cfg.numEnabledVADC ≠ NUM_ENABLED_VADC_SHORT_SHOT) :
    (cap_cfg.numEnabledVADC = 0 →
      capture_ConfigureCaptureBuffers cap_cfg s =
        (CmdStatus.ok, { s with sampleBufferSgpio := ⟨0x20000000, 0x10000⟩ })) ∧
    (cap_cfg.numEnabledVADC ≠ 0 → cap_cfg.numEnabledSgpio = 0 →
      capture_ConfigureCaptureBuffers cap_cfg s =
        (CmdStatus.ok, { s with sampleBufferVADC := ⟨0x20000000, 0x10000⟩ })) ∧
    (cap_cfg.numEnabledVADC ≠ 0 → cap_cfg.numEnabledSgpio ≠ 0 →
      (∀ row, findBufferRow (resolvedVadc cap_cfg.numEnabledVADC)
          (highestDio cap_cfg.sgpio.enabledChannels) = some row →
        capture_ConfigureCaptureBuffers cap_cfg s =
          (CmdStatus.ok,
           { s with sampleBufferSgpio := ⟨0x20000000, row.buffEndSgpio - 0x20000000⟩,
                    sampleBufferVADC := ⟨row.buffStartVADC, 0x20010000 - row.buffStartVADC⟩ }) ∧
        0x20000000 ≤ row.buffEndSgpio ∧ row.buffEndSgpio ≤ row.buffStartVADC ∧
        row.buffStartVADC ≤ 0x20010000) ∧
      (findBufferRow (resolvedVadc cap_cfg.numEnabledVADC)
          (highestDio cap_cfg.sgpio.enabledChannels) = none →
        capture_ConfigureCaptureBuffers cap_cfg s =
          (CmdStatus.errInvalidSignalCombination, s))) ∧
    ((highestDio cap_cfg.sgpio.enabledChannels = -1 ∧
        ∀ i, i ≤ MAX_NUM_DIOS → cap_cfg.sgpio.enabledChannels.testBit i = false) ∨
      (∃ i, i ≤ MAX_NUM_DIOS ∧ cap_cfg.sgpio.enabledChannels.testBit i = true ∧
        highestDio cap_cfg.sgpio.enabledChannels = (i : Int) + 1 ∧
        ∀ j, j ≤ MAX_NUM_DIOS → cap_cfg.sgpio.enabledChannels.testBit j = true → j ≤ i)) := by
  have hrows : ∀ r ∈ BUFFERCONFIG, 0x20000000 ≤ r.buffEndSgpio ∧
      r.buffEndSgpio ≤ r.buffStartVADC ∧ r.buffStartVADC ≤ 0x20010000 := by decide
  refine ⟨?_, ?_, ?_, highestDioAux_spec cap_cfg.sgpio.enabledChannels MAX_NUM_DIOS⟩
  · intro h0
    simp only [capture_ConfigureCaptureBuffers]
    rw [if_pos h0]
  · intro hnz hsg0
    simp only [capture_ConfigureCaptureBuffers]
    rw [if_neg hnz, if_neg hss, if_pos hsg0]
  · intro hnz hsgnz
    constructor
    · intro row hrow
      have hmem : row ∈ BUFFERCONFIG :=
        List.mem_of_find?_eq_some hrow
      refine ⟨?_, hrows row hmem⟩
      simp only [resolvedVadc, if_neg hss] at hrow
      simp only [capture_ConfigureCaptureBuffers]
      rw [if_neg hnz, if_neg hss, if_neg hsgnz, hrow]
    · intro hnone
      simp only [resolvedVadc, if_neg hss] at hnone
      simp only [capture_ConfigureCaptureBuffers]
      rw [if_neg hnz, if_neg hss, if_neg hsgnz, hnone]

/-- C5 witness: the plan theorem applied concretely: digital-only full
region; analog-only full region; and the mixed case with one analog
channel and DIO0 + DIO8 enabled (mask 0x101, normalized count 9) hitting
the row ending at 0x20005A00 / starting at 0x20006000. -/
theorem capture_ConfigureCaptureBuffers_plan_witness :
    capture_ConfigureCaptureBuffers
      ⟨2, 0, 0, 0, ⟨0x101, 0⟩, ⟨0, 0, 0, 0, 0⟩⟩ initCapState =
      (CmdStatus.ok, { initCapState with sampleBufferSgpio := ⟨0x20000000, 0x10000⟩ }) ∧
    capture_ConfigureCaptureBuffers
      ⟨0, 2, 0, 0, ⟨0, 0⟩, ⟨0, 0, 0, 0, 0⟩⟩ initCapState =
      (CmdStatus.ok, { initCapState with sampleBufferVADC := ⟨0x20000000, 0x10000⟩ }) ∧
    capture_ConfigureCaptureBuffers
      ⟨2, 1, 0, 0, ⟨0x101, 0⟩, ⟨0, 0, 0, 0, 0⟩⟩ initCapState =
      (CmdStatus.ok,
       { initCapState with sampleBufferSgpio := ⟨0x20000000, 0x20005A00 - 0x20000000⟩,
                           sampleBufferVADC := ⟨0x20006000, 0x20010000 - 0x20006000⟩ }) := by
  refine ⟨?_, ?_, ?_⟩
  · exact (capture_ConfigureCaptureBuffers_plan
      ⟨2, 0, 0, 0, ⟨0x101, 0⟩, ⟨0, 0, 0, 0, 0⟩⟩ initCapState (by decide)).1 (by decide)
  · exact (capture_ConfigureCaptureBuffers_plan
      ⟨0, 2, 0, 0, ⟨0, 0⟩, ⟨0, 0, 0, 0, 0⟩⟩ initCapState (by decide)).2.1 (by decide) (by decide)
  · exact ((capture_ConfigureCaptureBuffers_plan
      ⟨2, 1, 0, 0, ⟨0x101, 0⟩, ⟨0, 0, 0, 0, 0⟩⟩ initCapState (by decide)).2.2.1 (by decide)
      (by decide)).1 ⟨1, 9, 0x20005A00, 0x20006000⟩ (by decide) |>.1

/-- capture_SetSampleRate only touches the sample-rate index and context:
the enabled-channel counters are untouched. -/
theorem setSampleRate_keeps_channels (w n : Nat) (s : capture_state_t) :
    (capture_SetSampleRate w n s).2.1.enabledSgpioChannels = s.enabledSgpioChannels ∧
    (capture_SetSampleRate w n s).2.1.enabledVadcChannels = s.enabledVadcChannels ∧
    (capture_SetSampleRate w n s).2.1.hostRequest = s.hostRequest := by
  simp only [capture_SetSampleRate]
  split_ifs <;> simp

/-- capture_ConfigureCaptureBuffers only touches the two buffers. -/
theorem buffers_keeps_channels (cap_cfg : capture_cfg_t) (s : capture_state_t) :
    (capture_ConfigureCaptureBuffers cap_cfg s).2.enabledSgpioChannels =
      s.enabledSgpioChannels ∧
    (capture_ConfigureCaptureBuffers cap_cfg s).2.enabledVadcChannels =
      s.enabledVadcChannels ∧
    (capture_ConfigureCaptureBuffers cap_cfg s).2.hostRequest = s.hostRequest := by
  by_cases h0 : cap_cfg.numEnabledVADC = 0
  · simp [capture_ConfigureCaptureBuffers, h0]
  · by_cases h1 : cap_cfg.numEnabledVADC = NUM_ENABLED_VADC_SHORT_SHOT
    · simp [capture_ConfigureCaptureBuffers, h0, h1, NUM_ENABLED_VADC_SHORT_SHOT]
    · by_cases h2 : cap_cfg.numEnabledSgpio = 0
      · simp [capture_ConfigureCaptureBuffers, h0, h1, h2]
      · rcases h3 : findBufferRow
            (if cap_cfg.numEnabledVADC = NUM_ENABLED_VADC_CALIBRATE then
              NUM_ENABLED_VADC_CA_ACTUAL else cap_cfg.numEnabledVADC)
            (highestDio cap_cfg.sgpio.enabledChannels) with _ | row <;>
          simp [capture_ConfigureCaptureBuffers, h0, h1, h2, h3]

/-- Counter discipline of the common configuration tail: the counters are
cleared before validation, stay zero on every error exit, and are
committed to (numEnabledSgpio, resolved analog count) exactly on full
success; the no-channels case is the dedicated error. -/
theorem capture_Configure_tail_counters (cap_cfg : capture_cfg_t) (vadc : Nat)
    (env : ExtCollab) (s0 : capture_state_t) :
    ((capture_Configure_tail cap_cfg vadc env s0).1 ≠ CmdStatus.ok →
      (capture_Configure_tail cap_cfg vadc env s0).2.1.enabledSgpioChannels = 0 ∧
      (capture_Configure_tail cap_cfg vadc env s0).2.1.enabledVadcChannels = 0) ∧
    ((capture_Configure_tail cap_cfg vadc env s0).1 = CmdStatus.ok →
      (capture_Configure_tail cap_cfg vadc env s0).2.1.enabledSgpioChannels =
        cap_cfg.numEnabledSgpio ∧
      (capture_Configure_tail cap_cfg vadc env s0).2.1.enabledVadcChannels = vadc) ∧
    (cap_cfg.numEnabledSgpio = 0 ∧ vadc = 0 →
      (capture_Configure_tail cap_cfg vadc env s0).1 = CmdStatus.errNoChannelsEnabled) := by
  have hset := setSampleRate_keeps_channels cap_cfg.sampleRate vadc
    { s0 with enabledSgpioChannels := 0, enabledVadcChannels := 0 }
  have hbuf := buffers_keeps_channels cap_cfg
    (capture_SetSampleRate cap_cfg.sampleRate vadc
      { s0 with enabledSgpioChannels := 0, enabledVadcChannels := 0 }).2.1
  simp only [capture_Configure_tail]
  split_ifs with h1 h2 h3 h4 h5 h6 <;>
    simp_all

/-- C2 counterexample: when a genuine host request is refused by the
global state machine, capture_Configure returns that error before the
clearing step, so previously committed enabled-channel counters (here 3
digital channels) survive — contradicting the claim that every error
return leaves both counters zero. -/
theorem capture_Configure_statemachine_error_keeps_counters :
    ((capture_Configure ⟨1, 1, 2000000, 0, ⟨1, 0⟩, ⟨1, 0, 0, 0, 0⟩⟩
        ⟨CmdStatus.errOther 7, CmdStatus.ok, CmdStatus.ok, CmdStatus.ok, CmdStatus.ok⟩
        { initCapState with enabledSgpioChannels := 3 }).1 = CmdStatus.errOther 7) ∧
    ((capture_Configure ⟨1, 1, 2000000, 0, ⟨1, 0⟩, ⟨1, 0, 0, 0, 0⟩⟩
        ⟨CmdStatus.errOther 7, CmdStatus.ok, CmdStatus.ok, CmdStatus.ok, CmdStatus.ok⟩
        { initCapState with enabledSgpioChannels := 3 }).2.1.enabledSgpioChannels = 3) := by
  decide

/-- C2 (amended): capture_Configure clears both enabled-channel counters
before validating; on every error return other than the early
state-machine-transition refusal (which returns before the clear) both
counters are zero, in particular on the no-channels-enabled error when the
digital count and the escape-resolved analog count are both zero; the
counters are committed to the requested counts exactly when every
validation and per-engine configuration step succeeds. -/
theorem capture_Configure_error_leaves_disabled (cap_cfg : capture_cfg_t) (env : ExtCollab)
    (s : capture_state_t)
    (h : cap_cfg.numEnabledVADC = NUM_ENABLED_VADC_SHORT_SHOT ∨
         cap_cfg.numEnabledVADC = NUM_ENABLED_VADC_CALIBRATE ∨
         env.statemachineRequestState = CmdStatus.ok) :
    ((capture_Configure cap_cfg env s).1 ≠ CmdStatus.ok →
      (capture_Configure cap_cfg env s).2.1.enabledSgpioChannels = 0 ∧
      (capture_Configure cap_cfg env s).2.1.enabledVadcChannels = 0) ∧
    ((capture_Configure cap_cfg env s).1 = CmdStatus.ok →
      (capture_Configure cap_cfg env s).2.1.enabledSgpioChannels =
        cap_cfg.numEnabledSgpio ∧
      (capture_Configure cap_cfg env s).2.1.enabledVadcChannels =
        resolvedVadc cap_cfg.numEnabledVADC) ∧
    (cap_cfg.numEnabledSgpio = 0 ∧ resolvedVadc cap_cfg.numEnabledVADC = 0 →
      (capture_Configure cap_cfg env s).1 = CmdStatus.errNoChannelsEnabled) := by
  by_cases h1 : cap_cfg.numEnabledVADC = NUM_ENABLED_VADC_SHORT_SHOT
  · have ht := capture_Configure_tail_counters cap_cfg NUM_ENABLED_VADC_SS_ACTUAL env
      { s with purpose := capture_purpose_t.purposeShortShot }
    simp only [capture_Configure, if_pos h1]
    refine ⟨ht.1, ?_, ?_⟩
    · intro hok
      rw [show resolvedVadc cap_cfg.numEnabledVADC = NUM_ENABLED_VADC_SS_ACTUAL from by
        simp [resolvedVadc, h1]]
      exact ht.2.1 hok
    · intro ⟨_, habs⟩
      rw [show resolvedVadc cap_cfg.numEnabledVADC = NUM_ENABLED_VADC_SS_ACTUAL from by
        simp [resolvedVadc, h1]] at habs
      exact absurd habs (by decide)
  · by_cases h2 : cap_cfg.numEnabledVADC = NUM_ENABLED_VADC_CALIBRATE
    · have ht := capture_Configure_tail_counters cap_cfg NUM_ENABLED_VADC_CA_ACTUAL env
        { s with purpose := capture_purpose_t.purposeCalibrate }
      simp only [capture_Configure, if_neg h1, if_pos h2]
      refine ⟨ht.1, ?_, ?_⟩
      · intro hok
        rw [show resolvedVadc cap_cfg.numEnabledVADC = NUM_ENABLED_VADC_CA_ACTUAL from by
          simp [resolvedVadc, h1, h2, NUM_ENABLED_VADC_CALIBRATE, NUM_ENABLED_VADC_SHORT_SHOT]]
        exact ht.2.1 hok
      · intro ⟨_, habs⟩
        rw [show resolvedVadc cap_cfg.numEnabledVADC = NUM_ENABLED_VADC_CA_ACTUAL from by
          simp [resolvedVadc, h1, h2, NUM_ENABLED_VADC_CALIBRATE,
            NUM_ENABLED_VADC_SHORT_SHOT]] at habs
        exact absurd habs (by decide)
    · have hsm : env.statemachineRequestState = CmdStatus.ok := by tauto
      have ht := capture_Configure_tail_counters cap_cfg cap_cfg.numEnabledVADC env
        { s with captureSetup := cap_cfg, purpose := capture_purpose_t.purposeHostRequest }
      have hres : resolvedVadc cap_cfg.numEnabledVADC = cap_cfg.numEnabledVADC := by
        simp [resolvedVadc, h1, h2]
      simp only [capture_Configure, if_neg h1, if_neg h2,
        if_neg (show ¬env.statemachineRequestState ≠ CmdStatus.ok from by simp [hsm])]
      rw [hres]
      exact ht

/-- C2 witness: at a configuration with zero digital and zero analog
channels (and the state machine allowing the transition) the amended
theorem yields the no-channels-enabled error with both counters zero on
return. -/
theorem capture_Configure_error_leaves_disabled_witness :
    (capture_Configure zeroCfg envOK initCapState).1 = CmdStatus.errNoChannelsEnabled ∧
    (capture_Configure zeroCfg envOK initCapState).2.1.enabledSgpioChannels = 0 ∧
    (capture_Configure zeroCfg envOK initCapState).2.1.enabledVadcChannels = 0 := by
  have h := capture_Configure_error_leaves_disabled zeroCfg envOK initCapState
    (Or.inr (Or.inr (by decide)))
  have herr := h.2.2 (by decide)
  exact ⟨herr, h.1 (by rw [herr]; decide)⟩

/-- The weighted legality check only returns OK, invalid-signal-combination
or unsupported-sample-rate. -/
theorem weighted_status (cap_cfg : capture_cfg_t) :
    capture_WeightedConfigCheck cap_cfg = CmdStatus.ok ∨
    capture_WeightedConfigCheck cap_cfg = CmdStatus.errInvalidSignalCombination ∨
    capture_WeightedConfigCheck cap_cfg = CmdStatus.errUnsupportedSampleRate := by
  simp only [capture_WeightedConfigCheck]
  split_ifs <;> simp

/-- capture_SetSampleRate only returns OK or unsupported-sample-rate. -/
theorem setSampleRate_status (w n : Nat) (s : capture_state_t) :
    (capture_SetSampleRate w n s).1 = CmdStatus.ok ∨
    (capture_SetSampleRate w n s).1 = CmdStatus.errUnsupportedSampleRate := by
  simp only [capture_SetSampleRate]
  split_ifs <;> simp

/-- capture_SetSampleRate succeeds whenever the wanted rate resolves and
the 2-channel counter-1 rejection does not apply. -/
theorem setSampleRate_ok_of_found (w n : Nat) (s : capture_state_t)
    (hf : capture_FindSampleRateIndex w n ≠ -1)
    (hc : ¬(n = 2 ∧ (rateAt (capture_FindSampleRateIndex w n).toNat).counter = 1)) :
    (capture_SetSampleRate w n s).1 = CmdStatus.ok := by
  by_cases h1 : w ≠ (rateAt s.currentSampleRateIdx).sampleRate ∨ s.lastNumVADC ≠ (n : Int)
  · simp only [capture_SetSampleRate]
    rw [if_pos h1, if_pos hf, if_neg hc]
  · simp only [capture_SetSampleRate]
    rw [if_neg h1]

/-- No BUFFERCONFIG row has the normalized digital count -1 (every row's
digital count is at least 1). -/
theorem findBufferRow_neg_one (v : Nat) : findBufferRow v (-1) = none := by
  unfold findBufferRow
  rw [List.find?_eq_none]
  intro r hr
  have h1 : 1 ≤ r.numDio := (by decide : ∀ r ∈ BUFFERCONFIG, 1 ≤ r.numDio) r hr
  simp only [Bool.and_eq_true, beq_iff_eq, not_and]
  intro _
  omega

/-- With a nonzero digital count but an all-zero digital channel bitmask,
buffer planning matches no BUFFERCONFIG row and reports the
invalid-signal-combination error (state unchanged). -/
theorem buffers_invalid_of_empty_mask (cap_cfg : capture_cfg_t)
    (hmask : cap_cfg.sgpio.enabledChannels = 0)
    (hsg : cap_cfg.numEnabledSgpio ≠ 0)
    (hraw : cap_cfg.numEnabledVADC ≠ 0)
    (hss : cap_cfg.numEnabledVADC ≠ NUM_ENABLED_VADC_SHORT_SHOT)
    (s : capture_state_t) :
    capture_ConfigureCaptureBuffers cap_cfg s =
      (CmdStatus.errInvalidSignalCombination, s) := by
  simp only [capture_ConfigureCaptureBuffers]
  rw [if_neg hraw, if_neg hss, if_neg hsg, hmask]
  rw [show highestDio 0 = -1 from by decide, findBufferRow_neg_one]

/-- The configuration tail under a nonzero digital count with an all-zero
digital bitmask: the result is always a rejection (invalid combination or
unsupported rate), and exactly invalid-signal-combination once the
legality check and rate resolution succeed. -/
theorem capture_Configure_tail_empty_mask (cap_cfg : capture_cfg_t) (vadc : Nat)
    (env : ExtCollab) (s0 : capture_state_t)
    (hmask : cap_cfg.sgpio.enabledChannels = 0)
    (hsg : cap_cfg.numEnabledSgpio ≠ 0)
    (hraw : cap_cfg.numEnabledVADC ≠ 0)
    (hss : cap_cfg.numEnabledVADC ≠ NUM_ENABLED_VADC_SHORT_SHOT) :
    (capture_Configure_tail cap_cfg vadc env s0).1 ≠ CmdStatus.ok ∧
    ((capture_Configure_tail cap_cfg vadc env s0).1 =
        CmdStatus.errInvalidSignalCombination ∨
     (capture_Configure_tail cap_cfg vadc env s0).1 =
        CmdStatus.errUnsupportedSampleRate) ∧
    (capture_WeightedConfigCheck cap_cfg = CmdStatus.ok →
     capture_FindSampleRateIndex cap_cfg.sampleRate vadc ≠ -1 →
     ¬(vadc = 2 ∧
       (rateAt (capture_FindSampleRateIndex cap_cfg.sampleRate vadc).toNat).counter = 1) →
     (capture_Configure_tail cap_cfg vadc env s0).1 =
       CmdStatus.errInvalidSignalCombination) := by
  have h1 : ¬(cap_cfg.numEnabledSgpio = 0 ∧ vadc = 0) := fun h => hsg h.1
  by_cases h2 : capture_WeightedConfigCheck cap_cfg ≠ CmdStatus.ok
  · have heq : capture_Configure_tail cap_cfg vadc env s0 =
        (capture_WeightedConfigCheck cap_cfg,
         { s0 with enabledSgpioChannels := 0, enabledVadcChannels := 0 },
         [Event.ledArm false, Event.ledTrig false]) := by
      simp only [capture_Configure_tail]
      rw [if_neg h1, if_pos h2]
    rw [heq]
    refine ⟨h2, ?_, fun hw => absurd hw h2⟩
    rcases weighted_status cap_cfg with h | h | h
    · exact absurd h h2
    · exact Or.inl h
    · exact Or.inr h
  · push_neg at h2
    by_cases h3 : (capture_SetSampleRate cap_cfg.sampleRate vadc
        { s0 with enabledSgpioChannels := 0, enabledVadcChannels := 0 }).1 ≠ CmdStatus.ok
    · have heq : capture_Configure_tail cap_cfg vadc env s0 =
          ((capture_SetSampleRate cap_cfg.sampleRate vadc
              { s0 with enabledSgpioChannels := 0, enabledVadcChannels := 0 }).1,
           (capture_SetSampleRate cap_cfg.sampleRate vadc
              { s0 with enabledSgpioChannels := 0, enabledVadcChannels := 0 }).2.1,
           [Event.ledArm false, Event.ledTrig false] ++
             (capture_SetSampleRate cap_cfg.sampleRate vadc
               { s0 with enabledSgpioChannels := 0, enabledVadcChannels := 0 }).2.2) := by
        simp only [capture_Configure_tail]
        rw [if_neg h1, if_neg (not_not_intro h2), if_pos h3]
      rw [heq]
      refine ⟨h3, ?_, ?_⟩
      · rcases setSampleRate_status cap_cfg.sampleRate vadc
            { s0 with enabledSgpioChannels := 0, enabledVadcChannels := 0 } with h | h
        · exact absurd h h3
        · exact Or.inr h
      · intro _ hfind hrej
        exact absurd (setSampleRate_ok_of_found cap_cfg.sampleRate vadc _ hfind hrej) h3
    · push_neg at h3
      have hbuf := buffers_invalid_of_empty_mask cap_cfg hmask hsg hraw hss
        (capture_SetSampleRate cap_cfg.sampleRate vadc
          { s0 with enabledSgpioChannels := 0, enabledVadcChannels := 0 }).2.1
      have heq : capture_Configure_tail cap_cfg vadc env s0 =
          (CmdStatus.errInvalidSignalCombination,
           (capture_SetSampleRate cap_cfg.sampleRate vadc
              { s0 with enabledSgpioChannels := 0, enabledVadcChannels := 0 }).2.1,
           [Event.ledArm false, Event.ledTrig false] ++
             (capture_SetSampleRate cap_cfg.sampleRate vadc
               { s0 with enabledSgpioChannels := 0, enabledVadcChannels := 0 }).2.2) := by
        simp only [capture_Configure_tail]
        rw [if_neg h1, if_neg (not_not_intro h2), if_neg (not_not_intro h3), hbuf]
        simp
      rw [heq]
      exact ⟨by simp, Or.inl rfl, fun _ _ _ => rfl⟩

/-- C10 counterexample: with one analog channel, one (claimed) digital
channel, an empty digital bitmask and sample rate 25 kHz — which passes
the legality check but is absent from the rate table — capture_Configure
returns unsupported-sample-rate, not the invalid-signal-combination error
the claim promises for every such configuration. -/
theorem capture_Configure_empty_mask_cex :
    (capture_Configure ⟨1, 1, 25000, 0, ⟨0, 0⟩, ⟨3, 0, 0, 0, 0⟩⟩ envOK initCapState).1 =
      CmdStatus.errUnsupportedSampleRate ∧
    (capture_Configure ⟨1, 1, 25000, 0, ⟨0, 0⟩, ⟨3, 0, 0, 0, 0⟩⟩ envOK initCapState).1 ≠
      CmdStatus.errInvalidSignalCombination := by decide

/-- C10 (amended): for every configuration whose analog count resolves to
at least 1 (not short-shot) and whose digital count is nonzero while the
digital bitmask has no bit set, the normalized digital count is -1, no
BUFFERCONFIG row matches, and capture_Configure rejects: it never returns
success, the error is invalid-signal-combination or (when the rate step
fails first) unsupported-sample-rate, and it is exactly the
invalid-signal-combination error whenever the legality check and the rate
resolution succeed; both enabled-channel counters are zero on return. -/
theorem capture_Configure_empty_mask_rejected (cap_cfg : capture_cfg_t) (env : ExtCollab)
    (s : capture_state_t)
    (hmask : cap_cfg.sgpio.enabledChannels = 0)
    (hsg : cap_cfg.numEnabledSgpio ≠ 0)
    (hss : cap_cfg.numEnabledVADC ≠ NUM_ENABLED_VADC_SHORT_SHOT)
    (hvadc : resolvedVadc cap_cfg.numEnabledVADC ≠ 0)
    (hsm : cap_cfg.numEnabledVADC = NUM_ENABLED_VADC_CALIBRATE ∨
           env.statemachineRequestState = CmdStatus.ok) :
    (capture_Configure cap_cfg env s).1 ≠ CmdStatus.ok ∧
    ((capture_Configure cap_cfg env s).1 = CmdStatus.errInvalidSignalCombination ∨
     (capture_Configure cap_cfg env s).1 = CmdStatus.errUnsupportedSampleRate) ∧
    (capture_Configure cap_cfg env s).2.1.enabledSgpioChannels = 0 ∧
    (capture_Configure cap_cfg env s).2.1.enabledVadcChannels = 0 ∧
    highestDio cap_cfg.sgpio.enabledChannels = -1 ∧
    (∀ v, findBufferRow v (-1) = none) ∧
    (capture_WeightedConfigCheck cap_cfg = CmdStatus.ok →
     capture_FindSampleRateIndex cap_cfg.sampleRate (resolvedVadc cap_cfg.numEnabledVADC) ≠
       -1 →
     ¬(resolvedVadc cap_cfg.numEnabledVADC = 2 ∧
       (rateAt (capture_FindSampleRateIndex cap_cfg.sampleRate
         (resolvedVadc cap_cfg.numEnabledVADC)).toNat).counter = 1) →
     (capture_Configure cap_cfg env s).1 = CmdStatus.errInvalidSignalCombination) := by
  have hraw : cap_cfg.numEnabledVADC ≠ 0 := by
    intro h0
    exact hvadc (by simp [resolvedVadc, h0, NUM_ENABLED_VADC_SHORT_SHOT,
      NUM_ENABLED_VADC_CALIBRATE])
  have hDio : highestDio cap_cfg.sgpio.enabledChannels = -1 := by
    rw [hmask]; decide
  by_cases h2 : cap_cfg.numEnabledVADC = NUM_ENABLED_VADC_CALIBRATE
  · have hres : resolvedVadc cap_cfg.numEnabledVADC = NUM_ENABLED_VADC_CA_ACTUAL := by
      simp [resolvedVadc, h2, NUM_ENABLED_VADC_CALIBRATE, NUM_ENABLED_VADC_SHORT_SHOT]
    have htail := capture_Configure_tail_empty_mask cap_cfg NUM_ENABLED_VADC_CA_ACTUAL env
      { s with purpose := capture_purpose_t.purposeCalibrate } hmask hsg hraw hss
    have hcnt := capture_Configure_tail_counters cap_cfg NUM_ENABLED_VADC_CA_ACTUAL env
      { s with purpose := capture_purpose_t.purposeCalibrate }
    simp only [capture_Configure, if_neg hss, if_pos h2]
    rw [hres]
    exact ⟨htail.1, htail.2.1, (hcnt.1 htail.1).1, (hcnt.1 htail.1).2, hDio,
      findBufferRow_neg_one, htail.2.2⟩
  · have hsmok : env.statemachineRequestState = CmdStatus.ok := by tauto
    have hres : resolvedVadc cap_cfg.numEnabledVADC = cap_cfg.numEnabledVADC := by
      simp [resolvedVadc, hss, h2]
    have htail := capture_Configure_tail_empty_mask cap_cfg cap_cfg.numEnabledVADC env
      { s with captureSetup := cap_cfg, purpose := capture_purpose_t.purposeHostRequest }
      hmask hsg hraw hss
    have hcnt := capture_Configure_tail_counters cap_cfg cap_cfg.numEnabledVADC env
      { s with captureSetup := cap_cfg, purpose := capture_purpose_t.purposeHostRequest }
    simp only [capture_Configure, if_neg hss, if_neg h2,
      if_neg (show ¬env.statemachineRequestState ≠ CmdStatus.ok from by simp [hsmok])]
    rw [hres]
    exact ⟨htail.1, htail.2.1, (hcnt.1 htail.1).1, (hcnt.1 htail.1).2, hDio,
      findBufferRow_neg_one, htail.2.2⟩

/-- C10 witness: the amended theorem applied at a valid-rate configuration
(2 MHz, calibrate escape, empty digital bitmask, nonzero digital count):
the result is exactly the invalid-signal-combination error. -/
theorem capture_Configure_empty_mask_rejected_witness :
    (capture_Configure ⟨1, NUM_ENABLED_VADC_CALIBRATE, 2000000, 0, ⟨0, 0⟩, ⟨3, 0, 0, 0, 0⟩⟩
        envOK initCapState).1 = CmdStatus.errInvalidSignalCombination :=
  (capture_Configure_empty_mask_rejected
    ⟨1, NUM_ENABLED_VADC_CALIBRATE, 2000000, 0, ⟨0, 0⟩, ⟨3, 0, 0, 0, 0⟩⟩ envOK initCapState
    (by decide) (by decide) (by decide) (by decide) (Or.inl rfl)).2.2.2.2.2.2
    (by decide) (by decide) (by decide)

/-- The configuration tail never touches the host-intent field. -/
theorem tail_hostRequest (cap_cfg : capture_cfg_t) (vadc : Nat) (env : ExtCollab)
    (s0 : capture_state_t) :
    (capture_Configure_tail cap_cfg vadc env s0).2.1.hostRequest = s0.hostRequest := by
  have hset := setSampleRate_keeps_channels cap_cfg.sampleRate vadc
    { s0 with enabledSgpioChannels := 0, enabledVadcChannels := 0 }
  have hbuf := buffers_keeps_channels cap_cfg
    (capture_SetSampleRate cap_cfg.sampleRate vadc
      { s0 with enabledSgpioChannels := 0, enabledVadcChannels := 0 }).2.1
  simp only [capture_Configure_tail]
  split_ifs <;> simp_all

/-- capture_Configure never touches the host-intent field. -/
theorem configure_hostRequest (cap_cfg : capture_cfg_t) (env : ExtCollab)
    (s : capture_state_t) :
    (capture_Configure cap_cfg env s).2.1.hostRequest = s.hostRequest := by
  by_cases h1 : cap_cfg.numEnabledVADC = NUM_ENABLED_VADC_SHORT_SHOT
  · simp only [capture_Configure, if_pos h1]
    exact tail_hostRequest _ _ _ _
  · by_cases h2 : cap_cfg.numEnabledVADC = NUM_ENABLED_VADC_CALIBRATE
    · simp only [capture_Configure, if_neg h1, if_pos h2]
      exact tail_hostRequest _ _ _ _
    · by_cases h3 : env.statemachineRequestState ≠ CmdStatus.ok
      · simp only [capture_Configure, if_neg h1, if_neg h2, if_pos h3]
      · simp only [capture_Configure, if_neg h1, if_neg h2, if_neg h3]
        exact tail_hostRequest _ _ _ _

/-- capture_Arm never touches the host-intent field. -/
theorem arm_hostRequest (env : ExtCollab) (s : capture_state_t) :
    (capture_Arm env s).2.1.hostRequest = s.hostRequest := by
  simp only [capture_Arm]
  split_ifs <;> simp

/-- capture_ConfigureForCalibration never touches the host-intent field. -/
theorem cfc_hostRequest (env : ExtCollab) (voltsPerDiv vadc : Nat) (s : capture_state_t) :
    (capture_ConfigureForCalibration env voltsPerDiv vadc s).2.1.hostRequest =
      s.hostRequest := by
  simp only [capture_ConfigureForCalibration]
  split_ifs with h
  · dsimp only
    rw [arm_hostRequest, configure_hostRequest]
  · dsimp only
    rw [configure_hostRequest]

/-- Unsigned 32-bit subtraction of a value from itself is zero. -/
theorem u32sub_self (x : Nat) : u32sub x x = 0 := by
  unfold u32sub; omega

/-- Folding a boolean conjunction step over a list ANDs the initial
accumulator with the conjunction over the list. -/
theorem foldl_and {α : Type} (q : α → Bool) (l : List α) (init : Bool) :
    l.foldl (fun acc x => acc && q x) init = (init && l.all q) := by
  induction l generalizing init with
  | nil => simp
  | cons x xs ih => simp [ih, Bool.and_assoc]

/-- A latched fold (once false, stays false and skips the per-element
check) computes the same conjunction as the unconditional fold. -/
theorem foldl_latch {α : Type} (p : α → Bool) (l : List α) (init : Bool) :
    l.foldl (fun acc x => if acc then p x else false) init = (init && l.all p) := by
  have hstep : (fun acc x => if acc then p x else false) = (fun acc x => acc && p x) := by
    funext acc x
    cases acc <;> simp
  rw [hstep, foldl_and]

/-- The latched constructor loop equals the conjunction over all 16
cells. -/
theorem isDataReasonable_eq_all (r : calib_result) :
    isDataReasonable r =
      ((List.finRange 8).all fun i => (List.finRange 2).all fun ch =>
        cellReasonable r ch i) := by
  unfold isDataReasonable
  simp only [foldl_latch, foldl_and, Bool.true_and]

/-- One cell passes the constructor's check exactly when both its factors
are finite and within magnitude 1000. -/
theorem cellReasonable_eq_true_iff (r : calib_result) (ch : Fin 2) (i : Fin 8) :
    cellReasonable r ch i = true ↔
      (isInfiniteOrNan (calibA r ch i) = false ∧ isInfiniteOrNan (calibB r ch i) = false ∧
       (∀ a, calibA r ch i = some a → -1000 ≤ a ∧ a ≤ 1000) ∧
       (∀ b, calibB r ch i = some b → -1000 ≤ b ∧ b ≤ 1000)) := by
  unfold cellReasonable isInfiniteOrNan
  rcases hA : calibA r ch i with _ | a <;> rcases hB : calibB r ch i with _ | b <;>
    simp [and_assoc]

/-- C1: in an arm cycle with both engines enabled, capture_Arm resets the
sample accumulator to all-zero; the first completion callback (digital or
analog, in either order) emits no outward notification, and the second
emits exactly one notification carrying both engines' merged data: the
digital trigger bits in the low half and the analog trigger bits in the
high half of trigpoint, both trigger sample indices, both active-channel
masks, and both buffer references. -/
theorem capture_rendezvous_once (env : ExtCollab) (s0 sA : capture_state_t)
    (bS bV : circbuff_t) (tS tV nS nV mS mV : Nat)
    (harm : (capture_Arm env s0).1 = CmdStatus.ok)
    (hsA : sA = (capture_Arm env s0).2.1)
    (hsg : s0.enabledSgpioChannels > 0) (hva : s0.enabledVadcChannels > 0)
    (htS : tS < 2 ^ 16) (htV : tV < 2 ^ 16) :
    sA.capturedSamples = emptyCapturedSamples ∧
    (capture_ReportSGPIODone bS tS nS mS sA).2 = [] ∧
    (capture_ReportVADCDone bV tV nV mV (capture_ReportSGPIODone bS tS nS mS sA).1).2 =
      [Event.sendSamples ⟨tS ||| ((tV <<< 16) % 2 ^ 32), nS, mS, nV, mV, some bS, some bV⟩] ∧
    (capture_ReportVADCDone bV tV nV mV sA).2 = [] ∧
    (capture_ReportSGPIODone bS tS nS mS (capture_ReportVADCDone bV tV nV mV sA).1).2 =
      [Event.sendSamples ⟨tS ||| ((tV <<< 16) % 2 ^ 32), nS, mS, nV, mV, some bS, some bV⟩] ∧
    (∀ k, k < 16 → (tS ||| ((tV <<< 16) % 2 ^ 32)).testBit k = tS.testBit k) ∧
    (∀ k, k < 16 → (tS ||| ((tV <<< 16) % 2 ^ 32)).testBit (16 + k) = tV.testBit k) := by
  have hcounters : sA.enabledSgpioChannels = s0.enabledSgpioChannels ∧
      sA.enabledVadcChannels = s0.enabledVadcChannels ∧
      sA.capturedSamples = emptyCapturedSamples := by
    rw [hsA]
    simp only [capture_Arm] at harm ⊢
    split_ifs at harm ⊢ with h1 h2 h3
    · exact absurd harm h1.2
    all_goals simp
  obtain ⟨hg, hv, hcs⟩ := hcounters
  have hshift : (tV <<< 16) % 2 ^ 32 = tV <<< 16 := by
    apply Nat.mod_eq_of_lt
    rw [Nat.shiftLeft_eq]
    calc tV * 2 ^ 16 < 2 ^ 16 * 2 ^ 16 := (Nat.mul_lt_mul_right (by norm_num)).mpr htV
      _ = 2 ^ 32 := by norm_num
  have e1 : capture_ReportSGPIODone bS tS nS mS sA =
      ({ sA with capturedSamples := ⟨tS, nS, mS, 0, 0, some bS, none⟩ }, []) := by
    simp only [capture_ReportSGPIODone, hcs, emptyCapturedSamples]
    rw [if_neg (by push_neg; exact ⟨by omega, by simp⟩)]
    simp
  have e2 : capture_ReportVADCDone bV tV nV mV
        ({ sA with capturedSamples := ⟨tS, nS, mS, 0, 0, some bS, none⟩ } : capture_state_t) =
      ({ sA with capturedSamples :=
          ⟨tS ||| ((tV <<< 16) % 2 ^ 32), nS, mS, nV, mV, some bS, some bV⟩ },
       [Event.sendSamples ⟨tS ||| ((tV <<< 16) % 2 ^ 32), nS, mS, nV, mV, some bS, some bV⟩]) := by
    simp only [capture_ReportVADCDone]
    rw [if_pos (Or.inr (by simp))]
  have e3 : capture_ReportVADCDone bV tV nV mV sA =
      ({ sA with capturedSamples := ⟨(tV <<< 16) % 2 ^ 32, 0, 0, nV, mV, none, some bV⟩ },
       []) := by
    simp only [capture_ReportVADCDone, hcs, emptyCapturedSamples]
    rw [if_neg (by push_neg; exact ⟨by omega, by simp⟩)]
    simp
  have e4 : capture_ReportSGPIODone bS tS nS mS
        ({ sA with capturedSamples :=
            ⟨(tV <<< 16) % 2 ^ 32, 0, 0, nV, mV, none, some bV⟩ } : capture_state_t) =
      ({ sA with capturedSamples :=
          ⟨((tV <<< 16) % 2 ^ 32) ||| tS, nS, mS, nV, mV, some bS, some bV⟩ },
       [Event.sendSamples ⟨((tV <<< 16) % 2 ^ 32) ||| tS, nS, mS, nV, mV, some bS, some bV⟩]) := by
    simp only [capture_ReportSGPIODone]
    rw [if_pos (Or.inr (by simp))]
  refine ⟨hcs, ?_, ?_, ?_, ?_, ?_, ?_⟩
  · rw [e1]
  · rw [e1]
    simp only
    rw [e2]
  · rw [e3]
  · rw [e3]
    simp only
    rw [e4]
    simp [Nat.lor_comm]
  · intro k hk
    rw [hshift, Nat.testBit_lor, Nat.testBit_shiftLeft]
    have : ¬(16 ≤ k) := by omega
    simp [this]
  · intro k hk
    rw [hshift, Nat.testBit_lor, Nat.testBit_shiftLeft]
    have h1 : tS.testBit (16 + k) = false := by
      apply Nat.testBit_lt_two_pow
      calc tS < 2 ^ 16 := htS
        _ ≤ 2 ^ (16 + k) := Nat.pow_le_pow_right (by norm_num) (by omega)
    have h2 : (16 : Nat) ≤ 16 + k := by omega
    simp [h1, h2]

/-- Witness for capture_rendezvous_once at a concrete armed state and
concrete callback payloads. -/
theorem capture_rendezvous_once_witness :
    ((capture_ReportSGPIODone ⟨1, 2⟩ 3 4 5 (capture_Arm envOK armW).2.1).2 = [] ∧
     (capture_ReportVADCDone ⟨6, 7⟩ 8 9 10
        (capture_ReportSGPIODone ⟨1, 2⟩ 3 4 5 (capture_Arm envOK armW).2.1).1).2 =
       [Event.sendSamples
         ⟨3 ||| ((8 <<< 16) % 2 ^ 32), 4, 5, 9, 10, some ⟨1, 2⟩, some ⟨6, 7⟩⟩]) := by
  have h := capture_rendezvous_once envOK armW (capture_Arm envOK armW).2.1
    ⟨1, 2⟩ ⟨6, 7⟩ 3 8 4 9 5 10 (by decide) rfl (by decide) (by decide)
    (by decide) (by decide)
  exact ⟨h.2.1, h.2.2.1⟩

/-- C6: the reasonableness flag computed by the constructor is true
exactly when every cell's intercept A and slope B are finite and of
magnitude at most 1000; a record differing from another only in one
cell's measured input codes, with that cell's pair made equal (division
by zero), has a false flag while every other cell's factors are computed
unchanged. -/
theorem calibration_reasonableness (r r' : calib_result) (ch0 : Fin 2) (i0 : Fin 8)
    (hdac : r'.dacValOut = r.dacValOut) (huser : r'.userOut = r.userOut)
    (hvl : r'.voltsInLow = r.voltsInLow) (hvh : r'.voltsInHigh = r.voltsInHigh)
    (hlo : ∀ ch i, ¬(ch = ch0 ∧ i = i0) → r'.inLow ch i = r.inLow ch i)
    (hhi : ∀ ch i, ¬(ch = ch0 ∧ i = i0) → r'.inHigh ch i = r.inHigh ch i)
    (hbad : r'.inLow ch0 i0 = r'.inHigh ch0 i0) :
    (isDataReasonable r = true ↔
      ∀ ch i, isInfiniteOrNan (calibA r ch i) = false ∧
        isInfiniteOrNan (calibB r ch i) = false ∧
        (∀ a, calibA r ch i = some a → -1000 ≤ a ∧ a ≤ 1000) ∧
        (∀ b, calibB r ch i = some b → -1000 ≤ b ∧ b ≤ 1000)) ∧
    isDataReasonable r' = false ∧
    (∀ ch i, ¬(ch = ch0 ∧ i = i0) →
      calibA r' ch i = calibA r ch i ∧ calibB r' ch i = calibB r ch i) := by
  have hB : calibB r' ch0 i0 = none := by
    unfold calibB
    rw [hbad, u32sub_self]
    rcases dSub (calibVin1 r' ch0 i0) (calibVin2 r' ch0 i0) with _ | q <;> simp [dDiv]
  refine ⟨?_, ?_, ?_⟩
  · rw [isDataReasonable_eq_all]
    simp only [List.all_eq_true, List.mem_finRange, true_implies, cellReasonable_eq_true_iff]
    constructor
    · intro h ch i; exact h i ch
    · intro h i ch; exact h ch i
  · have hcell : cellReasonable r' ch0 i0 = false := by
      unfold cellReasonable
      rw [hB]
      rcases calibA r' ch0 i0 with _ | a <;> simp
    rw [isDataReasonable_eq_all]
    refine List.all_eq_false.mpr ⟨i0, List.mem_finRange i0, ?_⟩
    simp only [Bool.not_eq_true]
    refine List.all_eq_false.mpr ⟨ch0, List.mem_finRange ch0, ?_⟩
    simp [hcell]
  · intro ch i hne
    constructor <;>
      simp only [calibA, calibB, calibVin1, calibVin2, estimateActualDacVoltage,
        hdac, huser, hvl, hvh, hlo ch i hne, hhi ch i hne]

/-- Witness for calibration_reasonableness at the concrete fixtures: the
one-corrupted-cell record is flagged unreasonable and an untouched cell's
slope is unchanged. -/
theorem calibration_reasonableness_witness :
    isDataReasonable cexCalibOne = false ∧
    calibB cexCalibOne 1 3 = calibB cexCalib 1 3 := by
  have h := calibration_reasonableness cexCalib cexCalibOne 0 0 rfl rfl rfl rfl
    (by decide) (by decide) (by decide)
  exact ⟨h.2.1, (h.2.2 1 3 (by decide)).2⟩

/-- Counterexample to C7 as claimed: in cell (0, 0) of cexCalib the low
code 100 is below the high code 200, so the C divisor wraps unsigned to
2^32 - 100 instead of the signed -100; the stored slope differs from the
signed 2-point form the claim states. -/
theorem calibB_signed_slope_cex :
    calibB cexCalib 0 0 = some (1 / 17179868784) ∧
    calibB_spec cexCalib 0 0 = some (-(1 / 400)) ∧
    calibB cexCalib 0 0 ≠ calibB_spec cexCalib 0 0 := by
  have h1 : calibB cexCalib 0 0 = some (1 / 17179868784) := by
    norm_num [calibB, calibVin1, calibVin2, estimateActualDacVoltage, cexCalib, dDiv, dSub,
      dMul, dAdd, u32sub, spiDacClipValue, truncQ, Rat.floor_def', Rat.num_ofNat,
      Rat.den_ofNat]
  have h2 : calibB_spec cexCalib 0 0 = some (-(1 / 400)) := by
    norm_num [calibB_spec, calibVin1, calibVin2, estimateActualDacVoltage, cexCalib, dDiv,
      dSub, dMul, dAdd, spiDacClipValue, truncQ, Rat.floor_def', Rat.num_ofNat,
      Rat.den_ofNat]
  refine ⟨h1, h2, ?_⟩
  rw [h1, h2]
  intro hcontr
  rw [Option.some_inj] at hcontr
  norm_num at hcontr

/-- C7 amended: the intercept satisfies A = vin1 - B*codeIn1 as claimed,
but the slope's divisor is the unsigned 32-bit difference of the measured
input codes: it equals the signed difference codeIn1 - codeIn2 only when
codeIn1 is at least codeIn2, and wraps to codeIn1 + 2^32 - codeIn2 when
codeIn1 < codeIn2. -/
theorem calibB_two_point (r : calib_result) (ch : Fin 2) (i : Fin 8)
    (hlo : r.inLow ch i < 2 ^ 32) (hhi : r.inHigh ch i < 2 ^ 32) :
    calibA r ch i =
      dSub (calibVin1 r ch i) (dMul (calibB r ch i) (some (r.inLow ch i : ℚ))) ∧
    (r.inHigh ch i ≤ r.inLow ch i →
      calibB r ch i =
        dDiv (dSub (calibVin1 r ch i) (calibVin2 r ch i))
          (some ((r.inLow ch i : ℚ) - (r.inHigh ch i : ℚ)))) ∧
    (r.inLow ch i < r.inHigh ch i →
      calibB r ch i =
        dDiv (dSub (calibVin1 r ch i) (calibVin2 r ch i))
          (some ((r.inLow ch i : ℚ) + 2 ^ 32 - (r.inHigh ch i : ℚ)))) := by
  refine ⟨rfl, ?_, ?_⟩
  · intro h
    have hn : u32sub (r.inLow ch i) (r.inHigh ch i) = r.inLow ch i - r.inHigh ch i := by
      unfold u32sub; omega
    unfold calibB
    rw [hn, Nat.cast_sub h]
  · intro h
    have hn : u32sub (r.inLow ch i) (r.inHigh ch i) =
        r.inLow ch i + 2 ^ 32 - r.inHigh ch i := by
      unfold u32sub; omega
    unfold calibB
    rw [hn, Nat.cast_sub (by omega)]
    push_cast
    ring_nf

/-- Witness for calibB_two_point at cexCalib cell (0, 0), whose codes are
in the wrapping order 100 < 200. -/
theorem calibB_two_point_witness :
    calibB cexCalib 0 0 =
      dDiv (dSub (calibVin1 cexCalib 0 0) (calibVin2 cexCalib 0 0))
        (some ((cexCalib.inLow 0 0 : ℚ) + 2 ^ 32 - (cexCalib.inHigh 0 0 : ℚ))) :=
  (calibB_two_point cexCalib 0 0 (by decide) (by decide)).2.2 (by decide)

/-- Projection of a triple's first component. -/
theorem tripleFst {α β γ : Type} (a : α) (b : β) (c : γ) :
    (((a, b, c) : α × β × γ)).1 = a := rfl

/-- Projection of a triple's second component. -/
theorem tripleSndFst {α β γ : Type} (a : α) (b : β) (c : γ) :
    (((a, b, c) : α × β × γ)).2.1 = b := rfl

/-- Projection of a triple's third component. -/
theorem tripleSndSnd {α β γ : Type} (a : α) (b : β) (c : γ) :
    (((a, b, c) : α × β × γ)).2.2 = c := rfl

/-- capture_Init never touches the host-intent field. -/
theorem init_hostRequest (s : capture_state_t) :
    (capture_Init s).1.hostRequest = s.hostRequest := rfl

/-- capture_Disarm always reports OK. -/
theorem disarm_fst (s : capture_state_t) : (capture_Disarm s).1 = CmdStatus.ok := rfl

/-- capture_Disarm leaves the state unchanged. -/
theorem disarm_state (s : capture_state_t) : (capture_Disarm s).2.1 = s := rfl

attribute [irreducible] capture_Init capture_Configure capture_Arm
  capture_ConfigureForCalibration capture_SetSampleRate capture_ConfigureCaptureBuffers

set_option maxHeartbeats 1000000

/-- Unfolding equation for capture_HotSandby in terms of its three
sub-steps. -/
theorem hotSandby_unfold (env : ExtCollab) (s : capture_state_t) :
    capture_HotSandby env s =
      ((if (capture_Arm env (capture_ConfigureForCalibration env (ANALOG_IN_RANGES - 1)
              NUM_ENABLED_VADC_SHORT_SHOT (capture_Init s).1).2.1).1 ≠ CmdStatus.ok then
          (capture_Arm env (capture_ConfigureForCalibration env (ANALOG_IN_RANGES - 1)
              NUM_ENABLED_VADC_SHORT_SHOT (capture_Init s).1).2.1).1
        else if (capture_ConfigureForCalibration env (ANALOG_IN_RANGES - 1)
              NUM_ENABLED_VADC_SHORT_SHOT (capture_Init s).1).1 ≠ CmdStatus.ok then
          (capture_ConfigureForCalibration env (ANALOG_IN_RANGES - 1)
              NUM_ENABLED_VADC_SHORT_SHOT (capture_Init s).1).1
        else CmdStatus.ok),
       (capture_Arm env (capture_ConfigureForCalibration env (ANALOG_IN_RANGES - 1)
           NUM_ENABLED_VADC_SHORT_SHOT (capture_Init s).1).2.1).2.1,
       (capture_Init s).2 ++
         (capture_ConfigureForCalibration env (ANALOG_IN_RANGES - 1)
             NUM_ENABLED_VADC_SHORT_SHOT (capture_Init s).1).2.2 ++
         (capture_Arm env (capture_ConfigureForCalibration env (ANALOG_IN_RANGES - 1)
             NUM_ENABLED_VADC_SHORT_SHOT (capture_Init s).1).2.1).2.2) := rfl

/-- Unfolding equation for capture_Stop in terms of its two sub-steps. -/
theorem stop_unfold (env : ExtCollab) (s : capture_state_t) :
    capture_Stop env s =
      ((if (capture_HotSandby env
              (if (capture_Disarm s).2.1.hostRequest = capture_host_request_t.hostArmed then
                { (capture_Disarm s).2.1 with
                    hostRequest := capture_host_request_t.hostDisarmed }
              else (capture_Disarm s).2.1)).1 ≠ CmdStatus.ok then
          (capture_HotSandby env
              (if (capture_Disarm s).2.1.hostRequest = capture_host_request_t.hostArmed then
                { (capture_Disarm s).2.1 with
                    hostRequest := capture_host_request_t.hostDisarmed }
              else (capture_Disarm s).2.1)).1
        else if (capture_Disarm s).1 ≠ CmdStatus.ok then (capture_Disarm s).1
        else CmdStatus.ok),
       (capture_HotSandby env
           (if (capture_Disarm s).2.1.hostRequest = capture_host_request_t.hostArmed then
             { (capture_Disarm s).2.1 with
                 hostRequest := capture_host_request_t.hostDisarmed }
           else (capture_Disarm s).2.1)).2.1,
       (capture_Disarm s).2.2 ++
         (capture_HotSandby env
             (if (capture_Disarm s).2.1.hostRequest = capture_host_request_t.hostArmed then
               { (capture_Disarm s).2.1 with
                   hostRequest := capture_host_request_t.hostDisarmed }
             else (capture_Disarm s).2.1)).2.2) := rfl

/-- capture_HotSandby never touches the host-intent field. -/
theorem hotSandby_hostRequest (env : ExtCollab) (s : capture_state_t) :
    (capture_HotSandby env s).2.1.hostRequest = s.hostRequest := by
  rw [hotSandby_unfold, tripleSndFst, arm_hostRequest, cfc_hostRequest, init_hostRequest]

/-- C9: capture_Stop always executes both of its sub-steps — the disarm
step and the hot-standby step (its trace is the disarm trace followed by
the full hot-standby trace, whatever either step returns); the disarm step
itself always reports OK, the returned status is the hot-standby failure
when there is one and otherwise the disarm status (a later success never
masks an earlier failure, and when both fail the most recent failure
wins); host intent is recorded as Disarmed exactly when it was previously
Armed, and is otherwise untouched. -/
theorem capture_Stop_runs_both_steps (env : ExtCollab) (s : capture_state_t) :
    (capture_Disarm s).1 = CmdStatus.ok ∧
    (capture_Stop env s).2.2 =
      (capture_Disarm s).2.2 ++
        (capture_HotSandby env
          (if s.hostRequest = capture_host_request_t.hostArmed then
            { s with hostRequest := capture_host_request_t.hostDisarmed } else s)).2.2 ∧
    (capture_Stop env s).1 =
      (if (capture_HotSandby env
            (if s.hostRequest = capture_host_request_t.hostArmed then
              { s with hostRequest := capture_host_request_t.hostDisarmed } else s)).1 ≠
          CmdStatus.ok then
        (capture_HotSandby env
          (if s.hostRequest = capture_host_request_t.hostArmed then
            { s with hostRequest := capture_host_request_t.hostDisarmed } else s)).1
       else (capture_Disarm s).1) ∧
    (capture_Stop env s).2.1.hostRequest =
      (if s.hostRequest = capture_host_request_t.hostArmed then
        capture_host_request_t.hostDisarmed else s.hostRequest) := by
  have hS2 : (if (capture_Disarm s).2.1.hostRequest = capture_host_request_t.hostArmed then
        { (capture_Disarm s).2.1 with hostRequest := capture_host_request_t.hostDisarmed }
      else (capture_Disarm s).2.1) =
      (if s.hostRequest = capture_host_request_t.hostArmed then
        { s with hostRequest := capture_host_request_t.hostDisarmed } else s) := by
    rw [disarm_state]
  refine ⟨rfl, ?_, ?_, ?_⟩
  · rw [stop_unfold, tripleSndSnd, hS2]
  · rw [stop_unfold, tripleFst, hS2, disarm_fst]
    split_ifs <;> simp_all
  · rw [stop_unfold, tripleSndFst, hS2, hotSandby_hostRequest]
    by_cases h : s.hostRequest = capture_host_request_t.hostArmed <;> simp [h]

end Labtool
